import Mathlib

/-!
Verification of the ECE560 μSD-card driver (ulibSD, modified by A. Dean)
against its natural-language specification.

The development shallowly embeds the two sd_io.c implementations found in
the repository:

* Project_2B/Source/sd_io.c — the blocking (RTOS) implementation; its
  functions are embedded as Lean functions `SD_Read`, `SD_Write`, `SD_Init`,
  `SD_Status`, `__SD_Send_Cmd`, `__SD_Sectors`, `__SD_Power_Of_Two`.
  Loops that the source bounds by the SPI countdown timer are executed with
  fuel drawn from the environment's timer model; loops the source does not
  bound at all (the data-start-token wait, the busy-line wait and the
  CSD-response wait, whose SPI_Timer_On calls are commented out or absent)
  take an explicit fuel parameter and return none when it runs out, so a
  result of none for every fuel is exactly non-termination.

* Project_2A_Base/Source/sd_io.c — the step-per-call FSM implementation;
  its SD_Read / SD_Write are embedded as single-step functions
  `SD_Read_step` / `SD_Write_step` over the FSM's persistent statics.

* sd_server.c (reproduced in src/README.md) — `Update_Trans` and
  `Task_SD_Server`, embedded over an oracle for the stepped SD operation.

The SPI transport (spi_io.c) is not part of the repository.  Modelled from
the spec: the transport exposes byte exchange, chip-select, release,
clock-speed selection and a restartable millisecond countdown timer with a
boolean still-running query.  An environment supplies the byte returned by
the n-th exchange (rx) and, for the k-th arming of the timer, the number of
still-running queries that answer true before the countdown is observed to
have expired (fuel) — a countdown queried repeatedly answers true finitely
often and then false.  Stopping the timer is recorded but does not force
the next query to false (the hardware counter keeps its value), which is
the behaviour the driver relies on, e.g. in the CMD58 guard of SD_Init.

The header sd_io.h is also absent from the repository; its constants and
the SD_DEV record are modelled from the spec and the ulibSD conventions the
.c files assume (command index = 0x40 + n, ACMD flag 0x80, card-type flags,
512-byte blocks).
-/

namespace SdCard

/-- Result codes of the SD functions (SDRESULTS in sd_io.h, mirrored by the
SD_Errors table at the top of both sd_io.c files). -/
inductive SDRESULTS where
  | SD_OK
  | SD_NOINIT
  | SD_ERROR
  | SD_PARERR
  | SD_BUSY
  | SD_REJECT
  | SD_NORESPONSE
deriving DecidableEq, Repr

open SDRESULTS

/-- Device descriptor (SD_DEV).  Modelled from the spec: card-type flags,
mounted flag, highest valid sector index, and the two debug counters.
The counters are modelled as unbounded naturals (sd_io.h is not in the
repository to fix their C width). -/
structure SD_DEV where
  cardtype : ℕ
  mount : Bool
  last_sector : ℕ
  debug_read : ℕ
  debug_write : ℕ
deriving DecidableEq, Repr

/-- Card type flag: MMC version 3 (SDCT_MMC). -/
def SDCT_MMC : ℕ := 0x01
/-- Card type flag: SD version 1 (SDCT_SD1). -/
def SDCT_SD1 : ℕ := 0x02
/-- Card type flag: SD version 2 (SDCT_SD2). -/
def SDCT_SD2 : ℕ := 0x04
/-- Card type flag: block-addressed (SDCT_BLOCK). -/
def SDCT_BLOCK : ℕ := 0x08

/-- Block size in bytes (SD_BLK_SIZE). -/
def SD_BLK_SIZE : ℕ := 512

/-- Write busy-wait timeout in ms (SD_IO_WRITE_TIMEOUT_WAIT; sd_io.h absent,
value only flows into the logged timer event, never into control flow). -/
def SD_IO_WRITE_TIMEOUT_WAIT : ℕ := 250

/-- SPI-mode command bytes (sd_io.h absent; modelled from the spec's fixed
command-frame format: start bit pattern 0x40 plus the command index, with
0x80 marking an application command sent as CMD55 then the command). -/
def CMD0 : ℕ := 0x40
/-- CMD1: SEND_OP_COND for MMC. -/
def CMD1 : ℕ := 0x41
/-- CMD8: SEND_IF_COND. -/
def CMD8 : ℕ := 0x48
/-- CMD9: SEND_CSD. -/
def CMD9 : ℕ := 0x49
/-- CMD16: SET_BLOCKLEN. -/
def CMD16 : ℕ := 0x50
/-- CMD17: READ_SINGLE_BLOCK. -/
def CMD17 : ℕ := 0x51
/-- CMD24: WRITE_SINGLE_BLOCK. -/
def CMD24 : ℕ := 0x58
/-- CMD55: APP_CMD prefix. -/
def CMD55 : ℕ := 0x77
/-- CMD58: READ_OCR. -/
def CMD58 : ℕ := 0x7A
/-- CMD59: CRC_ON_OFF. -/
def CMD59 : ℕ := 0x7B
/-- ACMD41: application command SD_SEND_OP_COND (0x80 flag plus CMD41). -/
def ACMD41 : ℕ := 0xC0 + 41

/-- Transport events, one per call into the SPI layer.  The exch event
records the transmitted and the received byte of one SPI_RW call. -/
inductive Ev where
  | exch (tx rx : ℕ)
  | csLow
  | csHigh
  | timerOn (ms : ℕ)
  | timerOff
  | timerQ (b : Bool)
  | release
  | spiInitEv
  | freqLow
  | freqHigh
  | delay (ticks : ℕ)
deriving DecidableEq, Repr

/-- Transport environment: rx n is the byte the card puts on the bus for the
n-th exchange; fuel k is how many still-running queries of the k-th timer
arming answer true before the countdown expires; tickFreq is the RTOS
kernel tick frequency read by the Project_2B code for osDelay. -/
structure Env where
  rx : ℕ → ℕ
  fuel : ℕ → ℕ
  tickFreq : ℕ

/-- Transport state threaded through the embedded code: number of exchanges
so far, number of timer armings so far, remaining true answers of the
current arming, and the log of transport events (most recent first). -/
structure St where
  nRx : ℕ
  nTimer : ℕ
  tFuel : ℕ
  evs : List Ev
deriving DecidableEq, Repr

/-- Initial transport state. -/
def St.init : St := ⟨0, 0, 0, []⟩

/-- Log one transport event. -/
def logE (e : Ev) (s : St) : St := { s with evs := e :: s.evs }

/-- SPI_RW: exchange one byte; the received byte is the environment's byte
for the current exchange index, reduced to 8 bits. -/
def SPI_RW (env : Env) (tx : ℕ) (s : St) : ℕ × St :=
  (env.rx s.nRx % 256,
   { s with nRx := s.nRx + 1,
            evs := Ev.exch (tx % 256) (env.rx s.nRx % 256) :: s.evs })

/-- SPI_Timer_On: arm the countdown; the environment fixes how many
still-running queries of this arming answer true. -/
def SPI_Timer_On (env : Env) (ms : ℕ) (s : St) : St :=
  { s with nTimer := s.nTimer + 1, tFuel := env.fuel s.nTimer,
           evs := Ev.timerOn ms :: s.evs }

/-- SPI_Timer_Status: true while the countdown is still running; every true
answer consumes one unit of the arming's budget. -/
def SPI_Timer_Status (s : St) : Bool × St :=
  if s.tFuel = 0 then (false, logE (Ev.timerQ false) s)
  else (true, { s with tFuel := s.tFuel - 1, evs := Ev.timerQ true :: s.evs })

/-- SPI_Timer_Off: stop the countdown (logged only; the remaining budget is
kept, see the module comment). -/
def SPI_Timer_Off (s : St) : St := logE Ev.timerOff s

/-- SPI_CS_Low (__SD_Assert). -/
def SPI_CS_Low (s : St) : St := logE Ev.csLow s
/-- SPI_CS_High (__SD_Deassert). -/
def SPI_CS_High (s : St) : St := logE Ev.csHigh s
/-- SPI_Release. -/
def SPI_Release (s : St) : St := logE Ev.release s
/-- SPI_Init. -/
def SPI_Init (s : St) : St := logE Ev.spiInitEv s
/-- SPI_Freq_Low. -/
def SPI_Freq_Low (s : St) : St := logE Ev.freqLow s
/-- SPI_Freq_High. -/
def SPI_Freq_High (s : St) : St := logE Ev.freqHigh s
/-- osDelay, called by Project_2B SD_Init as osDelay(500*tick_freq/1000). -/
def osDelay (ticks : ℕ) (s : St) : St := logE (Ev.delay ticks) s

/-- Response wait of __SD_Send_Cmd: do res = SPI_RW(0xFF) while
((res & 0x80) && SPI_Timer_Status()); the fuel argument is always the
current arming's remaining budget, so the zero case coincides with the
timer answering false. -/
def cmdRespLoop (env : Env) : ℕ → St → ℕ × St
  | 0, s =>
    let p := SPI_RW env 0xFF s
    if p.1 &&& 0x80 = 0 then p
    else
      let q := SPI_Timer_Status p.2
      (p.1, q.2)
  | f + 1, s =>
    let p := SPI_RW env 0xFF s
    if p.1 &&& 0x80 = 0 then p
    else
      let q := SPI_Timer_Status p.2
      if q.1 then cmdRespLoop env f q.2 else (p.1, q.2)

/-- Body of __SD_Send_Cmd for a plain (non-ACMD) command byte: select the
card, send the 6-byte frame with the command-specific CRC, then wait for a
response under the 5 ms timer. -/
def sendCmdFrame (env : Env) (cmd arg : ℕ) (s : St) : ℕ × St :=
  let s := SPI_CS_High s
  let s := (SPI_RW env 0xFF s).2
  let s := SPI_CS_Low s
  let s := (SPI_RW env 0xFF s).2
  let s := (SPI_RW env cmd s).2
  let s := (SPI_RW env (arg >>> 24 % 256) s).2
  let s := (SPI_RW env (arg >>> 16 % 256) s).2
  let s := (SPI_RW env (arg >>> 8 % 256) s).2
  let s := (SPI_RW env (arg % 256) s).2
  let crc : ℕ := if cmd = CMD0 then 0x95 else if cmd = CMD8 then 0x87 else 0x01
  let s := (SPI_RW env crc s).2
  let s := SPI_Timer_On env 5 s
  let p := cmdRespLoop env s.tFuel s
  (p.1, SPI_Timer_Off p.2)

/-- __SD_Send_Cmd: an ACMD (0x80 flag) is the sequence CMD55 then the
command with the flag cleared, aborted if CMD55 answers above 1. -/
def __SD_Send_Cmd (env : Env) (cmd arg : ℕ) (s : St) : ℕ × St :=
  if cmd &&& 0x80 ≠ 0 then
    let p := sendCmdFrame env CMD55 0 s
    if p.1 > 1 then p
    else sendCmdFrame env (cmd &&& 0x7F) arg p.2
  else sendCmdFrame env cmd arg s

/-- Data-start-token wait of Project_2B SD_Read: do tkn = SPI_RW(0xFF) while
(tkn == 0xFF).  The source's SPI_Timer_On(100) is commented out, so the loop
is unbounded on the transport: fuel only truncates the embedding, and none
for every fuel is exactly non-termination. -/
def tokenLoop (env : Env) : ℕ → St → Option (ℕ × St)
  | 0, _ => none
  | f + 1, s =>
    let p := SPI_RW env 0xFF s
    if p.1 = 0xFF then tokenLoop env f p.2 else some p

/-- Data-streaming loop of Project_2B SD_Read (AGD loop fusion): for the
remaining r of the 514 bytes, exchange one byte; if its zero-based index
byte_num lies in [ofs, ofs+cnt) append it to the destination, else discard. -/
def readLoop (env : Env) (ofs cnt : ℕ) : ℕ → ℕ → List ℕ → St → List ℕ × St
  | 0, _, out, s => (out, s)
  | r + 1, byte_num, out, s =>
    let p := SPI_RW env 0xFF s
    let out := if ofs ≤ byte_num ∧ byte_num < ofs + cnt then out ++ [p.1] else out
    readLoop env ofs cnt r (byte_num + 1) out p.2

/-- SD_Read of Project_2B/Source/sd_io.c.  The destination buffer is
returned as the list of bytes written through the pointer, in write order.
The idle-counter instrumentation (READ_before/READ_after/READ_diff) and the
DEBUG signals are not transport operations and are omitted. -/
def SD_Read (env : Env) (fuel : ℕ) (dev : SD_DEV) (sector ofs cnt : ℕ)
    (s : St) : Option (SDRESULTS × List ℕ × SD_DEV × St) :=
  if sector > dev.last_sector ∨ cnt = 0 then some (SD_PARERR, [], dev, s)
  else
    let p := __SD_Send_Cmd env CMD17 sector s
    if p.1 = 0 then
      (tokenLoop env fuel p.2).bind fun q =>
        let s1 := SPI_Timer_Off q.2
        if q.1 = 0xFE then
          let r := readLoop env ofs cnt (SD_BLK_SIZE + 2) 0 [] s1
          let s2 := SPI_Release r.2
          some (SD_OK, r.1, { dev with debug_read := dev.debug_read + 1 }, s2)
        else
          let s2 := SPI_Release s1
          some (SD_ERROR, [], { dev with debug_read := dev.debug_read + 1 }, s2)
    else
      let s2 := SPI_Release p.2
      some (SD_ERROR, [], { dev with debug_read := dev.debug_read + 1 }, s2)

/-- Block-data loop of Project_2B SD_Write: send the remaining r of the 512
source bytes, one SPI exchange each. -/
def writeLoop (env : Env) (dat : ℕ → ℕ) : ℕ → ℕ → St → St
  | 0, _, s => s
  | r + 1, idx, s => writeLoop env dat r (idx + 1) (SPI_RW env (dat idx) s).2

/-- Busy-line wait of Project_2B SD_Write: do line = SPI_RW(0xFF) while
(line == 0).  The source's SPI_Timer_On(SD_IO_WRITE_TIMEOUT_WAIT) and
SPI_Timer_Off are commented out, so the loop is unbounded on the transport;
none for every fuel is exactly non-termination. -/
def busyLoop (env : Env) : ℕ → St → Option (ℕ × St)
  | 0, _ => none
  | f + 1, s =>
    let p := SPI_RW env 0xFF s
    if p.1 = 0 then busyLoop env f p.2 else some p

/-- SD_Write of Project_2B/Source/sd_io.c.  The WRITE_* idle-counter
instrumentation and DEBUG signals are omitted; note the source contains no
SPI_Release call on any path of this function, and the line==0 test after
the busy loop can only see a non-zero byte (dead SD_BUSY branch). -/
def SD_Write (env : Env) (fuel : ℕ) (dev : SD_DEV) (dat : ℕ → ℕ) (sector : ℕ)
    (s : St) : Option (SDRESULTS × SD_DEV × St) :=
  if sector > dev.last_sector then some (SD_PARERR, dev, s)
  else
    let p := __SD_Send_Cmd env CMD24 sector s
    if p.1 = 0 then
      let s1 := (SPI_RW env 0xFE p.2).2
      let s2 := writeLoop env dat SD_BLK_SIZE 0 s1
      let s3 := (SPI_RW env 0xFF s2).2
      let s4 := (SPI_RW env 0xFF s3).2
      let q := SPI_RW env 0xFF s4
      if q.1 &&& 0x1F ≠ 0x05 then some (SD_REJECT, dev, q.2)
      else
        (busyLoop env fuel q.2).bind fun b =>
          let dev1 := { dev with debug_write := dev.debug_write + 1 }
          if b.1 = 0 then some (SD_BUSY, dev1, b.2)
          else some (SD_OK, dev1, b.2)
    else some (SD_ERROR, dev, p.2)

/-- SD_Status (identical in both sd_io.c files): send CMD0 and report SD_OK
for any non-zero R1 response byte, SD_NORESPONSE for a zero byte. -/
def SD_Status (env : Env) (s : St) : SDRESULTS × St :=
  let p := __SD_Send_Cmd env CMD0 0 s
  (if p.1 ≠ 0 then SD_OK else SD_NORESPONSE, p.2)

/-- __SD_Power_Of_Two: partial starts at 1 and is doubled e times in a
32-bit DWORD. -/
def __SD_Power_Of_Two : ℕ → ℕ
  | 0 => 1
  | e + 1 => __SD_Power_Of_Two e * 2 % 2 ^ 32

/-- CSD capacity decode of __SD_Sectors (identical in both sd_io.c files),
as a pure function of the card type and the 16 CSD bytes.  C_SIZE is a
16-bit WORD in the source, so every shift-assign into it truncates mod
2^16; ss is a 32-bit DWORD.  The SDCT_SD2 branch keeps READ_BL_LEN = 0 (the
READ_BL_LEN = 9 line is commented out) and sets C_SIZE_MULT = 8; the
ss /= SD_BLK_SIZE division is commented out in both files. -/
def csdDecode (cardtype : ℕ) (csd : List ℕ) : ℕ :=
  let b := fun i => csd.getD i 0
  let fields : ℕ × ℕ × ℕ :=
    if cardtype &&& SDCT_SD1 ≠ 0 then
      let READ_BL_LEN := b 5 &&& 0x0F
      let C_SIZE := b 6 &&& 0x03
      let C_SIZE := C_SIZE <<< 8 % 2 ^ 16
      let C_SIZE := (C_SIZE ||| b 7) % 2 ^ 16
      let C_SIZE := C_SIZE <<< 2 % 2 ^ 16
      let C_SIZE := (C_SIZE ||| (b 8 >>> 6 &&& 0x03)) % 2 ^ 16
      let C_SIZE_MULT := b 9 &&& 0x03
      let C_SIZE_MULT := C_SIZE_MULT <<< 1 % 2 ^ 8
      let C_SIZE_MULT := (C_SIZE_MULT ||| (b 10 >>> 7 &&& 0x01)) % 2 ^ 8
      (C_SIZE, C_SIZE_MULT, READ_BL_LEN)
    else if cardtype &&& SDCT_SD2 ≠ 0 then
      let C_SIZE := b 7 &&& 0x3F
      let C_SIZE := C_SIZE <<< 8 % 2 ^ 16
      let C_SIZE := (C_SIZE ||| b 8) % 2 ^ 16
      let C_SIZE := C_SIZE <<< 8 % 2 ^ 16
      let C_SIZE := (C_SIZE ||| b 9) % 2 ^ 16
      (C_SIZE, 8, 0)
    else (0, 0, 0)
  let ss := (fields.1 + 1) % 2 ^ 32
  let ss := ss * __SD_Power_Of_Two (fields.2.1 + 2) % 2 ^ 32
  ss * __SD_Power_Of_Two fields.2.2 % 2 ^ 32

/-- CSD-response wait of __SD_Sectors: while (SPI_RW(0xFF) == 0xFF);.
No timer bounds this loop in the source; the first non-0xFF byte is
consumed by the loop itself. -/
def csdWait (env : Env) : ℕ → St → Option St
  | 0, _ => none
  | f + 1, s =>
    let p := SPI_RW env 0xFF s
    if p.1 = 0xFF then csdWait env f p.2 else some p.2

/-- Read n consecutive bytes from the transport. -/
def readBytes (env : Env) : ℕ → St → List ℕ × St
  | 0, s => ([], s)
  | n + 1, s =>
    let p := SPI_RW env 0xFF s
    let q := readBytes env n p.2
    (p.1 :: q.1, q.2)

/-- __SD_Sectors (identical in both sd_io.c files): on CMD9 success, wait
for the CSD response, read the 16 CSD bytes and the two CRC bytes, release
the bus and decode; on CMD9 failure return 0 without releasing. -/
def __SD_Sectors (env : Env) (fuel : ℕ) (dev : SD_DEV) (s : St) :
    Option (ℕ × St) :=
  let p := __SD_Send_Cmd env CMD9 0 s
  if p.1 = 0 then
    (csdWait env fuel p.2).bind fun s1 =>
      let r := readBytes env 16 s1
      let s2 := (SPI_RW env 0xFF r.2).2
      let s3 := (SPI_RW env 0xFF s2).2
      let s4 := SPI_Release s3
      some (csdDecode dev.cardtype r.1, s4)
  else some (0, p.2)

/-- CMD0-acknowledge wait of Project_2B SD_Init:
while ((__SD_Send_Cmd(CMD0,0) != 1) && (SPI_Timer_Status()==TRUE));.
Each condition evaluation re-sends CMD0, and __SD_Send_Cmd re-arms the
shared timer internally, so the loop is not bounded by the outer 500 ms
arming; it takes explicit fuel and returns none when it runs out. -/
def whileCmdNe1 (env : Env) (cmd arg : ℕ) : ℕ → St → Option St
  | 0, _ => none
  | f + 1, s =>
    let p := __SD_Send_Cmd env cmd arg s
    if p.1 ≠ 1 then
      let q := SPI_Timer_Status p.2
      if q.1 then whileCmdNe1 env cmd arg f q.2 else some q.2
    else some p.2

/-- Operating-condition wait of Project_2B SD_Init:
while ((SPI_Timer_Status()==TRUE) && (__SD_Send_Cmd(cmd,arg) != 0));
(status first, short-circuit).  Unbounded for the same reason as
whileCmdNe1: the inner command re-arms the shared timer. -/
def whileCmdNZ (env : Env) (cmd arg : ℕ) : ℕ → St → Option St
  | 0, _ => none
  | f + 1, s =>
    let q := SPI_Timer_Status s
    if q.1 then
      let p := __SD_Send_Cmd env cmd arg q.2
      if p.1 ≠ 0 then whileCmdNZ env cmd arg f p.2 else some p.2
    else some q.2

/-- Send n dummy 0xFF exchanges (the 80 dummy clocks of SD_Init). -/
def dummyClocks (env : Env) : ℕ → St → St
  | 0, s => s
  | n + 1, s => dummyClocks env n (SPI_RW env 0xFF s).2

/-- One iteration of the SD_Init retry loop of Project_2B/Source/sd_io.c,
returning the card-type flags it establishes (0 when no type was
confirmed).  The body's only write to the device descriptor is
dev->mount = FALSE, which negotiate applies to the descriptor it threads;
everything else here is transport work. -/
def initTry (env : Env) (fuel : ℕ) (s : St) : Option (ℕ × St) :=
  let s := SPI_Init s
  let s := SPI_CS_High s
  let s := SPI_Freq_Low s
  let s := dummyClocks env 10 s
  let s := osDelay (500 * env.tickFreq / 1000) s
  let s := SPI_Timer_On env 500 s
  (whileCmdNe1 env CMD0 0 fuel s).bind fun s =>
    let s := SPI_Timer_Off s
    let p0 := __SD_Send_Cmd env CMD0 0 s
    if p0.1 = 1 then
      let p8 := __SD_Send_Cmd env CMD8 0x1AA p0.2
      if p8.1 = 1 then
        let r := readBytes env 4 p8.2
        if r.1.getD 2 0 = 0x01 ∧ r.1.getD 3 0 = 0xAA then
          let s := SPI_Timer_On env 1000 r.2
          (whileCmdNZ env ACMD41 (1 <<< 30) fuel s).bind fun s =>
            let s := SPI_Timer_Off s
            let q := SPI_Timer_Status s
            if q.1 then
              let p58 := __SD_Send_Cmd env CMD58 0 q.2
              if p58.1 = 0 then
                let r2 := readBytes env 4 p58.2
                let ct := if r2.1.getD 0 0 &&& 0x40 ≠ 0
                          then SDCT_SD2 ||| SDCT_BLOCK else SDCT_SD2
                some (ct, r2.2)
              else some (0, p58.2)
            else some (0, q.2)
        else some (0, r.2)
      else
        let pa := __SD_Send_Cmd env ACMD41 0 p8.2
        let ct := if pa.1 ≤ 1 then SDCT_SD1 else SDCT_MMC
        let cmd := if pa.1 ≤ 1 then ACMD41 else CMD1
        let s := SPI_Timer_On env 250 pa.2
        (whileCmdNZ env cmd 0 fuel s).bind fun s =>
          let s := SPI_Timer_Off s
          let q := SPI_Timer_Status s
          let ct := if q.1 = false then 0 else ct
          let p59 := __SD_Send_Cmd env CMD59 0 q.2
          let ct := if p59.1 ≠ 0 then 0 else ct
          let p16 := __SD_Send_Cmd env CMD16 512 p59.2
          let ct := if p16.1 ≠ 0 then 0 else ct
          some (ct, p16.2)
    else some (0, p0.2)

/-- The SD_Init retry loop:
for(init_trys=0; ((init_trys!=SD_INIT_TRYS)&&(!ct)); init_trys++),
recursing on the remaining tries.  SD_INIT_TRYS itself comes from the
absent sd_io.h; the spec fixes it only as a small positive count, so it is
a parameter here. -/
def negotiate (env : Env) (fuel : ℕ) : ℕ → ℕ → SD_DEV → St →
    Option (ℕ × SD_DEV × St)
  | 0, ct, dev, s => some (ct, dev, s)
  | r + 1, ct, dev, s =>
    if ct ≠ 0 then some (ct, dev, s)
    else
      (initTry env fuel s).bind fun p =>
        negotiate env fuel r p.1 { dev with mount := false } p.2

/-- SD_Init of Project_2B/Source/sd_io.c: run the retry loop, then, when a
card type was confirmed, fill in the descriptor (card type, mounted flag,
last_sector = __SD_Sectors(dev) - 1 in 32-bit DWORD arithmetic, zeroed
debug counters) and switch to high-speed transfer; release the bus and
answer SD_OK or SD_NOINIT accordingly. -/
def SD_Init (env : Env) (fuel trys : ℕ) (dev : SD_DEV) (s : St) :
    Option (SDRESULTS × SD_DEV × St) :=
  (negotiate env fuel trys 0 dev s).bind fun n =>
    let ct := n.1
    if ct ≠ 0 then
      let dev1 := { n.2.1 with cardtype := ct, mount := true }
      (__SD_Sectors env fuel dev1 n.2.2).bind fun q =>
        let dev2 := { dev1 with
                        last_sector := (q.1 + (2 ^ 32 - 1)) % 2 ^ 32,
                        debug_read := 0, debug_write := 0 }
        let s1 := SPI_Freq_High q.2
        let s2 := SPI_Release s1
        some (SD_OK, dev2, s2)
    else
      let s1 := SPI_Release n.2.2
      some (SD_NOINIT, n.2.1, s1)

/-- FSM state tags (the states enum used by the Project_2A_Base sd_io.c
state machines; the header defining it is absent, the .c file uses
S0..S14). -/
inductive FsmS where
  | S0 | S1 | S2 | S3 | S4 | S5 | S6 | S7 | S8 | S9 | S10 | S11 | S12 | S13 | S14
deriving DecidableEq, Repr

open FsmS

/-- Persistent statics of Project_2A_Base SD_Read: rn_state, res, tkn,
byte_num, and the destination pointer modelled as the list of bytes written
so far. -/
structure RdA where
  state : FsmS
  res : SDRESULTS
  tkn : ℕ
  byte_num : ℕ
  out : List ℕ
deriving DecidableEq, Repr

/-- Initial statics of the Project_2A_Base read FSM (rn_state = S1). -/
def RdA.init : RdA := ⟨S1, SD_ERROR, 0, 0, []⟩

/-- One call of SD_Read of Project_2A_Base/Source/sd_io.c: a single switch
dispatch on rn_state.  Returns the call's SDRESULTS, the read_status flag
the call leaves behind (1 = operation still in progress), and the updated
statics, device and transport state.  In the default case the source sets
read_status = 0 and rn_state = S1 and then falls off the end of the
function without a return statement; that case is unreachable from the
states this machine uses, and the embedding answers the static res there. -/
def SD_Read_step (env : Env) (dev : SD_DEV) (sector ofs cnt : ℕ) (r : RdA)
    (s : St) : SDRESULTS × ℕ × RdA × SD_DEV × St :=
  match r.state with
  | S1 =>
    let r := { r with res := SD_ERROR, out := [] }
    if sector > dev.last_sector ∨ cnt = 0 then (SD_PARERR, 0, r, dev, s)
    else (SD_OK, 1, { r with state := S2 }, dev, s)
  | S2 =>
    let p := __SD_Send_Cmd env CMD17 sector s
    if p.1 = 0 then
      let s1 := SPI_Timer_On env 100 p.2
      let q := SPI_RW env 0xFF s1
      (SD_OK, 1, { r with state := S3, tkn := q.1 }, dev, q.2)
    else (SD_OK, 1, { r with state := S6 }, dev, p.2)
  | S3 =>
    if r.tkn = 0xFF then
      let q := SPI_Timer_Status s
      if q.1 then
        let p := SPI_RW env 0xFF q.2
        (SD_OK, 1, { r with tkn := p.1 }, dev, p.2)
      else (SD_OK, 1, { r with state := S4 }, dev, SPI_Timer_Off q.2)
    else (SD_OK, 1, { r with state := S4 }, dev, SPI_Timer_Off s)
  | S4 =>
    if r.tkn = 0xFE then
      let p := SPI_RW env 0xFF s
      let out := if ofs ≤ 0 ∧ 0 < ofs + cnt then r.out ++ [p.1] else r.out
      (SD_OK, 1, { r with state := S5, byte_num := 0, out := out }, dev, p.2)
    else (r.res, 1, { r with state := S6 }, dev, s)
  | S5 =>
    let bn := r.byte_num + 1
    if bn < SD_BLK_SIZE + 2 then
      let p := SPI_RW env 0xFF s
      let out := if ofs ≤ bn ∧ bn < ofs + cnt then r.out ++ [p.1] else r.out
      (SD_OK, 1, { r with byte_num := bn, out := out }, dev, p.2)
    else (SD_OK, 1, { r with state := S6, byte_num := bn, res := SD_OK }, dev, s)
  | S6 =>
    let s1 := SPI_Release s
    (r.res, 0, { r with state := S1 },
     { dev with debug_read := dev.debug_read + 1 }, s1)
  | _ => (r.res, 0, { r with state := S1 }, dev, s)

/-- Persistent statics of Project_2A_Base SD_Write: n_state, idx, line. -/
structure WrA where
  state : FsmS
  idx : ℕ
  line : ℕ
deriving DecidableEq, Repr

/-- Initial statics of the Project_2A_Base write FSM (n_state = S1). -/
def WrA.init : WrA := ⟨S1, 0, 0⟩

/-- One call of SD_Write of Project_2A_Base/Source/sd_io.c: a single switch
dispatch on n_state, returning the call's SDRESULTS, the idle_busy_status
flag it leaves behind (1 = operation still in progress), and the updated
statics, device and transport state.  On command rejection in S2 the source
leaves n_state at S2; on data-response rejection in S3 it returns SD_REJECT
without any SPI_Release; in S5 the source increments dev->debug.write on
both exits of the busy poll; the default case mirrors the source's missing
return (unreachable from S1..S6). -/
def SD_Write_step (env : Env) (dev : SD_DEV) (dat : ℕ → ℕ) (sector : ℕ)
    (w : WrA) (s : St) : SDRESULTS × ℕ × WrA × SD_DEV × St :=
  match w.state with
  | S1 =>
    if sector > dev.last_sector then (SD_PARERR, 0, w, dev, s)
    else (SD_OK, 1, { w with state := S2 }, dev, s)
  | S2 =>
    let p := __SD_Send_Cmd env CMD24 sector s
    if p.1 = 0 then
      let s1 := (SPI_RW env 0xFE p.2).2
      (SD_OK, 1, { w with state := S3, idx := 0 }, dev, s1)
    else (SD_ERROR, 0, w, dev, p.2)
  | S3 =>
    if w.idx ≠ SD_BLK_SIZE then
      let s1 := (SPI_RW env (dat w.idx) s).2
      (SD_OK, 1, { w with idx := w.idx + 1 }, dev, s1)
    else
      let s1 := (SPI_RW env 0xFF s).2
      let s2 := (SPI_RW env 0xFF s1).2
      let q := SPI_RW env 0xFF s2
      if q.1 &&& 0x1F ≠ 0x05 then (SD_REJECT, 0, { w with state := S1 }, dev, q.2)
      else (SD_OK, 1, { w with state := S4 }, dev, q.2)
  | S4 =>
    let s1 := SPI_Timer_On env SD_IO_WRITE_TIMEOUT_WAIT s
    let p := SPI_RW env 0xFF s1
    (SD_OK, 1, { w with state := S5, line := p.1 }, dev, p.2)
  | S5 =>
    if w.line = 0 then
      let q := SPI_Timer_Status s
      if q.1 then
        let p := SPI_RW env 0xFF q.2
        (SD_OK, 1, { w with line := p.1 }, dev, p.2)
      else
        (SD_OK, 1, { w with state := S6 },
         { dev with debug_write := dev.debug_write + 1 }, SPI_Timer_Off q.2)
    else
      (SD_OK, 1, { w with state := S6 },
       { dev with debug_write := dev.debug_write + 1 }, SPI_Timer_Off s)
  | S6 =>
    if w.line = 0 then (SD_BUSY, 0, { w with state := S1 }, dev, s)
    else (SD_OK, 0, { w with state := S1 }, dev, s)
  | _ => (SD_ERROR, 0, { w with state := S1 }, dev, s)

/-- Drive the Project_2A_Base write FSM: keep calling SD_Write_step while
the idle_busy_status flag it leaves is 1; when a call leaves the flag 0,
answer that call's result and the final statics, device and transport
state.  The budget n only truncates the embedding. -/
def driveW (env : Env) (dat : ℕ → ℕ) (sector : ℕ) :
    ℕ → WrA → SD_DEV → St → Option (SDRESULTS × WrA × SD_DEV × St)
  | 0, _, _, _ => none
  | n + 1, w, dev, s =>
    let r := SD_Write_step env dev dat sector w s
    if r.2.1 = 1 then driveW env dat sector n r.2.2.1 r.2.2.2.1 r.2.2.2.2
    else some (r.1, r.2.2.1, r.2.2.2.1, r.2.2.2.2)

/-- Transaction status values (sd_server.h absent; modelled from the spec's
status enumeration {idle, busy}). -/
def STAT_IDLE : ℕ := 0
/-- Transaction status value: busy. -/
def STAT_BUSY : ℕ := 1
/-- Request codes, in declaration order of the SDS_TD_T Request field as
stated by the comment above Req_to_State (sd_server.h absent). -/
def REQ_NONE : ℕ := 0
/-- Request code: initialize. -/
def REQ_INIT : ℕ := 1
/-- Request code: read. -/
def REQ_READ : ℕ := 2
/-- Request code: write. -/
def REQ_WRITE : ℕ := 3

/-- Shared transaction descriptor (SDS_TD_T).  Device and Data stand for
the pointer fields; their values only matter for the snapshot property. -/
structure SDS_TD where
  Request : ℕ
  Device : ℕ
  Data : ℕ
  Sector : ℕ
  Status : ℕ
  ErrorCode : SDRESULTS
deriving DecidableEq, Repr

/-- Update_Trans of sd_server.c: write the result code, set the shared
status idle and erase the request code. -/
def Update_Trans (t : SDS_TD) (res : SDRESULTS) : SDS_TD :=
  { t with ErrorCode := res, Status := STAT_IDLE, Request := REQ_NONE }

/-- Dispatcher states of Task_SD_Server. -/
inductive SrvS where
  | sIdle | sInit | sRead | sWrite | sError
deriving DecidableEq, Repr

/-- Req_to_State of sd_server.c: {S_IDLE, S_INIT, S_READ, S_WRITE} indexed
by the request code (only consulted for codes at most REQ_WRITE). -/
def Req_to_State : ℕ → SrvS
  | 1 => SrvS.sInit
  | 2 => SrvS.sRead
  | 3 => SrvS.sWrite
  | _ => SrvS.sIdle

/-- Persistent statics of Task_SD_Server: next_state, the local transaction
snapshot cur_trans, the last SD result, plus a count of SD-operation calls
made so far (the index into the operation oracle). -/
structure Srv where
  next : SrvS
  cur : SDS_TD
  res : SDRESULTS
  calls : ℕ
deriving DecidableEq, Repr

/-- One call of Task_SD_Server of sd_server.c.  In the operation states the
stepped SD function is abstracted by the oracle ops: ops n is the pair of
the SDRESULTS the n-th SD call returns and the still-in-progress flag
(*instatus / *rstatus / *status == 1) it leaves behind.  The S_ERROR state
is an infinite while(1) loop in the source; it is unreachable from S_IDLE
and embedded as a no-op step. -/
def Task_SD_Server (ops : ℕ → SDRESULTS × Bool) (g : SDS_TD) (v : Srv) :
    SDS_TD × Srv :=
  match v.next with
  | SrvS.sIdle =>
    if g.Request ≠ REQ_NONE then
      let v1 := { v with cur := g }
      if g.Request ≤ REQ_WRITE then
        ({ g with Status := STAT_BUSY }, { v1 with next := Req_to_State g.Request })
      else
        ({ g with Status := STAT_IDLE, Request := REQ_NONE,
                  ErrorCode := SD_PARERR }, v1)
    else (g, v)
  | SrvS.sError => (g, v)
  | _ =>
    let p := ops v.calls
    let v1 := { v with res := p.1, calls := v.calls + 1 }
    if p.2 then (g, v1)
    else (Update_Trans g p.1, { v1 with next := SrvS.sIdle })

/-- Iterate Task_SD_Server n times from a shared descriptor and statics. -/
def serverRun (ops : ℕ → SDRESULTS × Bool) : ℕ → SDS_TD × Srv → SDS_TD × Srv
  | 0, x => x
  | n + 1, x => serverRun ops n (Task_SD_Server ops x.1 x.2)

/-- Byte window of a read: of the r stream bytes with zero-based indices
byte_num, byte_num+1, ..., exactly those whose index lies in
[ofs, ofs+cnt), in stream order, where the byte of index byte_num is the
environment's byte for exchange base. -/
def windowList (env : Env) (ofs cnt : ℕ) : ℕ → ℕ → ℕ → List ℕ
  | 0, _, _ => []
  | r + 1, byte_num, base =>
    (if ofs ≤ byte_num ∧ byte_num < ofs + cnt then [env.rx base % 256] else [])
      ++ windowList env ofs cnt r (byte_num + 1) (base + 1)

/-- Reference sector count of a version-1 card per the CSD specification:
(C_SIZE+1) * 2^(C_SIZE_MULT+2) * 2^READ_BL_LEN bytes, divided by the
512-byte sector size. -/
def csdRefV1 (C_SIZE C_SIZE_MULT READ_BL_LEN : ℕ) : ℕ :=
  (C_SIZE + 1) * 2 ^ (C_SIZE_MULT + 2) * 2 ^ READ_BL_LEN / 512

/-- Reference sector count of a version-2 card per the CSD specification:
(C_SIZE+1) * 1024 sectors, with C_SIZE the full 22-bit field
csd[7][5:0] ++ csd[8] ++ csd[9]. -/
def csdRefV2 (C_SIZE : ℕ) : ℕ := (C_SIZE + 1) * 1024

/-- Full 22-bit C_SIZE field of a version-2 CSD, per the specification
(no 16-bit truncation). -/
def refCsizeV2 (csd : List ℕ) : ℕ :=
  (csd.getD 7 0 &&& 0x3F) <<< 16 ||| csd.getD 8 0 <<< 8 ||| csd.getD 9 0

/-- Version-1 CSD example: READ_BL_LEN = 9, C_SIZE = 5, C_SIZE_MULT = 1. -/
def csdV1ex : List ℕ := [0, 0, 0, 0, 0, 9, 0, 1, 0x40, 0, 0x80, 0, 0, 0, 0, 0]

/-- Version-2 CSD example whose true C_SIZE field is 0x10000 (csd[7] = 1,
csd[8] = csd[9] = 0), exercising the WORD truncation. -/
def csdV2ex : List ℕ := [0, 0, 0, 0, 0, 0, 0, 1, 0, 0, 0, 0, 0, 0, 0, 0]

/-- Version-2 CSD example whose true C_SIZE field is 256 and fits the
16-bit WORD (csd[7] = 0, csd[8] = 1, csd[9] = 0). -/
def csdV2small : List ℕ := [0, 0, 0, 0, 0, 0, 0, 0, 1, 0, 0, 0, 0, 0, 0, 0]

/-- Environment of a card that accepts the first command (response 0 on
exchange 8) and then answers 0xFF forever: the data-start token never
arrives, and the CSD response never arrives. -/
def envAcceptFF : Env :=
  { rx := fun n => if n = 8 then 0 else 0xFF, fuel := fun _ => 1, tickFreq := 1000 }

/-- Environment of a card that accepts CMD24 (exchange 8), accepts the data
block (data-response token 0x05 on exchange 524) and then never clears its
busy line (every later byte reads 0). -/
def envBusyF : Env :=
  { rx := fun n => if n = 524 then 5 else 0, fuel := fun _ => 1, tickFreq := 1000 }

/-- Environment of a dead transport: every exchanged byte reads 0xFF. -/
def envDead : Env :=
  { rx := fun _ => 0xFF, fuel := fun _ => 1, tickFreq := 1000 }

/-- Environment for the read-window witness: CMD17 accepted (exchange 8),
data-start token 0xFE on the first poll (exchange 9), and stream byte i of
the 514-byte data phase reading (10 + i) mod 256. -/
def envC1 : Env :=
  { rx := fun n => if n = 8 then 0 else if n = 9 then 0xFE else n % 256,
    fuel := fun _ => 1, tickFreq := 1000 }

/-- Environment of a write whose command is accepted but whose data block
is rejected: CMD24 accepted (exchange 8), every other byte 0xFF, so the
data-response token reads 0xFF and its low 5 bits are 0x1F, not 0x05. -/
def envRej : Env :=
  { rx := fun n => if n = 8 then 0 else 0xFF, fuel := fun _ => 1, tickFreq := 1000 }

/-- Environment of a successful version-2 negotiation: CMD0 answers 1
(exchanges 18 and 27), CMD8 answers 1 (exchange 36) with trailer bytes
0x01 0xAA (exchanges 39 and 40), and every other response byte reads 0,
so ACMD41 leaves idle at once, CMD58 succeeds with a zero OCR, CMD9
succeeds and the CSD reads as all zeroes. -/
def envInitOk : Env :=
  { rx := fun n => if n = 18 ∨ n = 27 ∨ n = 36 ∨ n = 39 then 1
                   else if n = 40 then 0xAA else 0,
    fuel := fun _ => 1, tickFreq := 1000 }

/-- Environment of a write whose busy line clears on the first poll:
CMD24 accepted (exchange 8), data-response token 0x05 (exchange 524),
every other byte 0xFF (in particular the first busy poll is non-zero). -/
def envWrOk : Env :=
  { rx := fun n => if n = 8 then 0 else if n = 524 then 5 else 0xFF,
    fuel := fun _ => 1, tickFreq := 1000 }

/-- Environment for the Project_2A busy-timeout runs: every byte the card
answers after the busy phase starts reads 0, and each timer arming grants
two still-running polls.  Exchange indices are irrelevant because the
Project_2A busy phase is entered directly in these runs. -/
def envBusyA : Env :=
  { rx := fun _ => 0, fuel := fun _ => 2, tickFreq := 1000 }

/-- Environment for the Project_2A busy-clears run: the second busy poll
(exchange 1) reads non-zero. -/
def envOkA : Env :=
  { rx := fun n => if n = 1 then 0x7F else 0, fuel := fun _ => 2, tickFreq := 1000 }

/-- A mounted device descriptor used by concrete runs. -/
def devC : SD_DEV := ⟨SDCT_SD2, true, 100, 0, 0⟩

/-- An unmounted, stale device descriptor handed to initialization. -/
def devI : SD_DEV := ⟨0, false, 77, 5, 6⟩

/-- An all-zero write source buffer. -/
def datZ : ℕ → ℕ := fun _ => 0

/-- Oracle of a stepped SD operation that reports in-progress at its first
call and completes with SD_OK at its second. -/
def opsW : ℕ → SDRESULTS × Bool := fun i => (SD_OK, i == 0)

/-- A submitted read transaction: request code 2, device 7, data 3,
sector 9, idle status, stale error code. -/
def g0W : SDS_TD := ⟨2, 7, 3, 9, 0, SD_ERROR⟩

/-- Dispatcher statics at rest: idle state, empty snapshot, call count 0. -/
def v0W : Srv := ⟨SrvS.sIdle, ⟨0, 0, 0, 0, 0, SD_OK⟩, SD_OK, 0⟩

/-! Projection lemmas for the transport primitives. -/

@[simp] theorem logE_nRx (e : Ev) (s : St) : (logE e s).nRx = s.nRx := rfl

@[simp] theorem logE_nTimer (e : Ev) (s : St) : (logE e s).nTimer = s.nTimer := rfl

@[simp] theorem logE_tFuel (e : Ev) (s : St) : (logE e s).tFuel = s.tFuel := rfl

@[simp] theorem logE_evs (e : Ev) (s : St) : (logE e s).evs = e :: s.evs := rfl

@[simp] theorem SPI_CS_Low_eq (s : St) : SPI_CS_Low s = logE Ev.csLow s := rfl

@[simp] theorem SPI_CS_High_eq (s : St) : SPI_CS_High s = logE Ev.csHigh s := rfl

@[simp] theorem SPI_Release_eq (s : St) : SPI_Release s = logE Ev.release s := rfl

@[simp] theorem SPI_Init_eq (s : St) : SPI_Init s = logE Ev.spiInitEv s := rfl

@[simp] theorem SPI_Freq_Low_eq (s : St) : SPI_Freq_Low s = logE Ev.freqLow s := rfl

@[simp] theorem SPI_Freq_High_eq (s : St) :
    SPI_Freq_High s = logE Ev.freqHigh s := rfl

@[simp] theorem osDelay_eq (t : ℕ) (s : St) : osDelay t s = logE (Ev.delay t) s := rfl

@[simp] theorem SPI_Timer_Off_eq (s : St) :
    SPI_Timer_Off s = logE Ev.timerOff s := rfl

@[simp] theorem SPI_RW_fst (env : Env) (tx : ℕ) (s : St) :
    (SPI_RW env tx s).1 = env.rx s.nRx % 256 := rfl

@[simp] theorem SPI_RW_nRx (env : Env) (tx : ℕ) (s : St) :
    (SPI_RW env tx s).2.nRx = s.nRx + 1 := rfl

@[simp] theorem SPI_RW_nTimer (env : Env) (tx : ℕ) (s : St) :
    (SPI_RW env tx s).2.nTimer = s.nTimer := rfl

@[simp] theorem SPI_RW_tFuel (env : Env) (tx : ℕ) (s : St) :
    (SPI_RW env tx s).2.tFuel = s.tFuel := rfl

@[simp] theorem SPI_RW_evs (env : Env) (tx : ℕ) (s : St) :
    (SPI_RW env tx s).2.evs
      = Ev.exch (tx % 256) (env.rx s.nRx % 256) :: s.evs := rfl

@[simp] theorem SPI_Timer_On_nRx (env : Env) (ms : ℕ) (s : St) :
    (SPI_Timer_On env ms s).nRx = s.nRx := rfl

@[simp] theorem SPI_Timer_On_nTimer (env : Env) (ms : ℕ) (s : St) :
    (SPI_Timer_On env ms s).nTimer = s.nTimer + 1 := rfl

@[simp] theorem SPI_Timer_On_tFuel (env : Env) (ms : ℕ) (s : St) :
    (SPI_Timer_On env ms s).tFuel = env.fuel s.nTimer := rfl

@[simp] theorem SPI_Timer_On_evs (env : Env) (ms : ℕ) (s : St) :
    (SPI_Timer_On env ms s).evs = Ev.timerOn ms :: s.evs := rfl

@[simp] theorem SPI_Timer_Off_nRx (s : St) : (SPI_Timer_Off s).nRx = s.nRx := rfl

@[simp] theorem SPI_Timer_Off_nTimer (s : St) :
    (SPI_Timer_Off s).nTimer = s.nTimer := rfl

@[simp] theorem SPI_Timer_Off_tFuel (s : St) :
    (SPI_Timer_Off s).tFuel = s.tFuel := rfl

@[simp] theorem SPI_Timer_Off_evs (s : St) :
    (SPI_Timer_Off s).evs = Ev.timerOff :: s.evs := rfl

@[simp] theorem SPI_Release_nRx (s : St) : (SPI_Release s).nRx = s.nRx := rfl

@[simp] theorem SPI_Release_evs (s : St) :
    (SPI_Release s).evs = Ev.release :: s.evs := rfl

@[simp] theorem SPI_Timer_Status_snd_nRx (s : St) :
    (SPI_Timer_Status s).2.nRx = s.nRx := by
  by_cases h : s.tFuel = 0 <;> simp [SPI_Timer_Status, logE, h]

@[simp] theorem SPI_Timer_Status_snd_nTimer (s : St) :
    (SPI_Timer_Status s).2.nTimer = s.nTimer := by
  by_cases h : s.tFuel = 0 <;> simp [SPI_Timer_Status, logE, h]

@[simp] theorem SPI_Timer_Status_snd_tFuel (s : St) :
    (SPI_Timer_Status s).2.tFuel = s.tFuel - 1 := by
  by_cases h : s.tFuel = 0
  · simp [SPI_Timer_Status, logE, h]
  · simp [SPI_Timer_Status, logE, h]

theorem SPI_Timer_Status_pos (s : St) (h : s.tFuel ≠ 0) :
    (SPI_Timer_Status s).1 = true := by simp [SPI_Timer_Status, h]

theorem SPI_Timer_Status_zero (s : St) (h : s.tFuel = 0) :
    (SPI_Timer_Status s).1 = false := by simp [SPI_Timer_Status, h]

@[simp] theorem SPI_Timer_Status_evs (s : St) :
    (SPI_Timer_Status s).2.evs = Ev.timerQ (SPI_Timer_Status s).1 :: s.evs := by
  by_cases h : s.tFuel = 0 <;> simp [SPI_Timer_Status, logE, h]

/-! Characterization of the command-response wait and the command frame. -/

theorem cmdRespLoop_imm (env : Env) (f : ℕ) (s : St)
    (h : env.rx s.nRx % 256 &&& 0x80 = 0) :
    cmdRespLoop env f s = SPI_RW env 0xFF s := by
  cases f <;> simp [cmdRespLoop, h]

theorem cmdRespLoop_nRx_le (env : Env) : ∀ f s,
    s.nRx + 1 ≤ (cmdRespLoop env f s).2.nRx := by
  intro f
  induction f with
  | zero =>
    intro s
    by_cases h : env.rx s.nRx % 256 &&& 0x80 = 0 <;> simp [cmdRespLoop, h]
  | succ f ih =>
    intro s
    by_cases h : env.rx s.nRx % 256 &&& 0x80 = 0
    · simp [cmdRespLoop, h]
    · simp only [cmdRespLoop, SPI_RW_fst, h, if_false]
      by_cases hq : (SPI_Timer_Status (SPI_RW env 0xFF s).2).1 = true
      · simp only [hq, if_true]
        have := ih (SPI_Timer_Status (SPI_RW env 0xFF s).2).2
        simp at this
        omega
      · simp [hq]

theorem cmdRespLoop_release (env : Env) : ∀ f s,
    Ev.release ∈ (cmdRespLoop env f s).2.evs ↔ Ev.release ∈ s.evs := by
  intro f
  induction f with
  | zero =>
    intro s
    by_cases h : env.rx s.nRx % 256 &&& 0x80 = 0 <;> simp [cmdRespLoop, h]
  | succ f ih =>
    intro s
    by_cases h : env.rx s.nRx % 256 &&& 0x80 = 0
    · simp [cmdRespLoop, h]
    · simp only [cmdRespLoop, SPI_RW_fst, h, if_false]
      by_cases hq : (SPI_Timer_Status (SPI_RW env 0xFF s).2).1 = true
      · simp only [hq, if_true]
        rw [ih]
        simp
      · simp [hq]

theorem sendCmdFrame_fst (env : Env) (cmd arg : ℕ) (s : St)
    (h : env.rx (s.nRx + 8) % 256 &&& 0x80 = 0) :
    (sendCmdFrame env cmd arg s).1 = env.rx (s.nRx + 8) % 256 := by
  simp only [sendCmdFrame]
  rw [cmdRespLoop_imm]
  · simp
  · simpa using h

theorem sendCmdFrame_nRx (env : Env) (cmd arg : ℕ) (s : St)
    (h : env.rx (s.nRx + 8) % 256 &&& 0x80 = 0) :
    (sendCmdFrame env cmd arg s).2.nRx = s.nRx + 9 := by
  simp only [sendCmdFrame]
  rw [cmdRespLoop_imm]
  · simp
  · simpa using h

theorem sendCmdFrame_nTimer (env : Env) (cmd arg : ℕ) (s : St)
    (h : env.rx (s.nRx + 8) % 256 &&& 0x80 = 0) :
    (sendCmdFrame env cmd arg s).2.nTimer = s.nTimer + 1 := by
  simp only [sendCmdFrame]
  rw [cmdRespLoop_imm]
  · simp
  · simpa using h

theorem sendCmdFrame_tFuel (env : Env) (cmd arg : ℕ) (s : St)
    (h : env.rx (s.nRx + 8) % 256 &&& 0x80 = 0) :
    (sendCmdFrame env cmd arg s).2.tFuel = env.fuel s.nTimer := by
  simp only [sendCmdFrame]
  rw [cmdRespLoop_imm]
  · simp
  · simpa using h

theorem sendCmdFrame_release (env : Env) (cmd arg : ℕ) (s : St) :
    Ev.release ∈ (sendCmdFrame env cmd arg s).2.evs ↔ Ev.release ∈ s.evs := by
  simp only [sendCmdFrame, SPI_Timer_Off_evs, List.mem_cons]
  rw [cmdRespLoop_release]
  simp [SPI_CS_High, SPI_CS_Low, logE]

theorem sendCmdFrame_nRx_le (env : Env) (cmd arg : ℕ) (s : St) :
    s.nRx + 9 ≤ (sendCmdFrame env cmd arg s).2.nRx := by
  unfold sendCmdFrame
  refine le_trans (le_of_eq ?_) (cmdRespLoop_nRx_le env _ _)
  simp

theorem sendCmd_plain (env : Env) (cmd arg : ℕ) (s : St)
    (hc : cmd &&& 0x80 = 0) :
    __SD_Send_Cmd env cmd arg s = sendCmdFrame env cmd arg s := by
  simp [__SD_Send_Cmd, hc]

/-! Characterization of the token wait and the data-streaming loop. -/

theorem tokenLoop_first (env : Env) (f : ℕ) (s : St)
    (h : env.rx s.nRx % 256 ≠ 0xFF) :
    tokenLoop env (f + 1) s = some (SPI_RW env 0xFF s) := by
  simp [tokenLoop, h]

theorem tokenLoop_ff (env : Env) : ∀ f s,
    (∀ n, s.nRx ≤ n → env.rx n % 256 = 0xFF) → tokenLoop env f s = none := by
  intro f
  induction f with
  | zero => intro s _; rfl
  | succ f ih =>
    intro s h
    have h0 : env.rx s.nRx % 256 = 0xFF := h s.nRx le_rfl
    simp only [tokenLoop, SPI_RW_fst, h0, if_pos rfl]
    exact ih _ (fun n hn => h n (by simp at hn ⊢; omega))

theorem readLoop_out (env : Env) (ofs cnt : ℕ) : ∀ r byte_num out s,
    (readLoop env ofs cnt r byte_num out s).1
      = out ++ windowList env ofs cnt r byte_num s.nRx := by
  intro r
  induction r with
  | zero => intro bn out s; simp [readLoop, windowList]
  | succ r ih =>
    intro bn out s
    by_cases h : ofs ≤ bn ∧ bn < ofs + cnt
    · simp [readLoop, windowList, h, ih]
    · simp [readLoop, windowList, h, ih]

theorem readLoop_nRx (env : Env) (ofs cnt : ℕ) : ∀ r byte_num out s,
    (readLoop env ofs cnt r byte_num out s).2.nRx = s.nRx + r := by
  intro r
  induction r with
  | zero => intro bn out s; simp [readLoop]
  | succ r ih =>
    intro bn out s
    by_cases h : ofs ≤ bn ∧ bn < ofs + cnt <;>
      simp [readLoop, h, ih] <;> omega

theorem windowList_len (env : Env) (ofs cnt : ℕ) : ∀ r byte_num base,
    (windowList env ofs cnt r byte_num base).length ≤ cnt - (byte_num - ofs) := by
  intro r
  induction r with
  | zero => intro bn base; simp [windowList]
  | succ r ih =>
    intro bn base
    have hih := ih (bn + 1) (base + 1)
    by_cases h : ofs ≤ bn ∧ bn < ofs + cnt
    · simp only [windowList]
      rw [if_pos h]
      simp only [List.length_append, List.length_cons, List.length_nil]
      omega
    · simp only [windowList]
      rw [if_neg h]
      simp only [List.nil_append]
      omega

/-- C1: for every device, destination, sector, offset and count with
sector within range and count positive, a Project_2B block read whose CMD17
is accepted (R1 response 0 on exchange index base+8) and whose data-start
token 0xFE arrives on the first poll (exchange base+9) answers SD_OK,
consumes exactly 514 further bytes — final exchange count base+524 = 8
command + 1 response + 1 token + 514 data/CRC — and writes to the
destination exactly the stream bytes whose zero-based index lies in
[ofs, ofs+cnt), in index order and contiguously (the windowList of the
514-byte stream starting at exchange base+10), hence at most cnt bytes. -/
theorem C1_read_window (env : Env) (fuel : ℕ) (dev : SD_DEV)
    (sector ofs cnt : ℕ) (s : St)
    (hsec : sector ≤ dev.last_sector) (hcnt : 0 < cnt)
    (hresp : env.rx (s.nRx + 8) % 256 = 0)
    (htok : env.rx (s.nRx + 9) % 256 = 0xFE) :
    ∃ out2 st2,
      SD_Read env (fuel + 1) dev sector ofs cnt s
        = some (SD_OK, out2, { dev with debug_read := dev.debug_read + 1 }, st2) ∧
      out2 = windowList env ofs cnt (SD_BLK_SIZE + 2) 0 (s.nRx + 10) ∧
      st2.nRx = s.nRx + 524 ∧
      out2.length ≤ cnt := by
  have h80 : env.rx (s.nRx + 8) % 256 &&& 0x80 = 0 := by rw [hresp]; decide
  have hnrx := sendCmdFrame_nRx env CMD17 sector s h80
  have hcall : ¬(sector > dev.last_sector ∨ cnt = 0) := by omega
  have hplain : __SD_Send_Cmd env CMD17 sector s = sendCmdFrame env CMD17 sector s :=
    sendCmd_plain env CMD17 sector s (by decide)
  have hfst : (sendCmdFrame env CMD17 sector s).1 = 0 := by
    rw [sendCmdFrame_fst env CMD17 sector s h80, hresp]
  have htl : tokenLoop env (fuel + 1) (sendCmdFrame env CMD17 sector s).2
      = some (SPI_RW env 0xFF (sendCmdFrame env CMD17 sector s).2) :=
    tokenLoop_first _ _ _ (by rw [hnrx, htok]; decide)
  have heq : SD_Read env (fuel + 1) dev sector ofs cnt s
      = some (SD_OK,
          (readLoop env ofs cnt (SD_BLK_SIZE + 2) 0 []
            (SPI_Timer_Off (SPI_RW env 0xFF (sendCmdFrame env CMD17 sector s).2).2)).1,
          { dev with debug_read := dev.debug_read + 1 },
          SPI_Release (readLoop env ofs cnt (SD_BLK_SIZE + 2) 0 []
            (SPI_Timer_Off (SPI_RW env 0xFF (sendCmdFrame env CMD17 sector s).2).2)).2) := by
    simp only [SD_Read, hplain, hfst, hcall, if_false, eq_self_iff_true, if_true,
      htl, Option.some_bind, SPI_RW_fst, hnrx, htok]
  refine ⟨_, _, heq, ?_, ?_, ?_⟩
  · rw [readLoop_out, List.nil_append]
    refine congrArg (windowList env ofs cnt (SD_BLK_SIZE + 2) 0) ?_
    simp only [SPI_Timer_Off_eq, logE_nRx, SPI_RW_nRx, hnrx]
  · rw [SPI_Release_eq, logE_nRx, readLoop_nRx]
    simp only [SPI_Timer_Off_eq, logE_nRx, SPI_RW_nRx, hnrx, SD_BLK_SIZE]
  · rw [readLoop_out, List.nil_append]
    have := windowList_len env ofs cnt (SD_BLK_SIZE + 2) 0
      ((SPI_Timer_Off (SPI_RW env 0xFF (sendCmdFrame env CMD17 sector s).2).2).nRx)
    omega

set_option maxRecDepth 40000 in
/-- C1 witness: against envC1 (card pattern byte i of the block reads
(10+i) mod 256), a read with ofs = 10, cnt = 5 delivers exactly stream
bytes [10,15) — the values 20..24 — and a read with ofs = 0, cnt = 512
delivers the full 512-byte block, byte-for-byte. -/
theorem C1_read_window_witness :
    ((0 : ℕ) ≤ devC.last_sector ∧ (0 : ℕ) < 5 ∧
      envC1.rx (St.init.nRx + 8) % 256 = 0 ∧
      envC1.rx (St.init.nRx + 9) % 256 = 0xFE) ∧
    (∃ out2 st2,
      SD_Read envC1 (0 + 1) devC 0 10 5 St.init
        = some (SD_OK, out2, { devC with debug_read := devC.debug_read + 1 }, st2) ∧
      out2 = windowList envC1 10 5 (SD_BLK_SIZE + 2) 0 (St.init.nRx + 10) ∧
      st2.nRx = St.init.nRx + 524 ∧
      out2.length ≤ 5) ∧
    (∃ out2 st2,
      SD_Read envC1 (0 + 1) devC 0 0 512 St.init
        = some (SD_OK, out2, { devC with debug_read := devC.debug_read + 1 }, st2) ∧
      out2 = windowList envC1 0 512 (SD_BLK_SIZE + 2) 0 (St.init.nRx + 10) ∧
      st2.nRx = St.init.nRx + 524 ∧
      out2.length ≤ 512) ∧
    windowList envC1 10 5 (SD_BLK_SIZE + 2) 0 (St.init.nRx + 10)
      = [20, 21, 22, 23, 24] ∧
    windowList envC1 0 512 (SD_BLK_SIZE + 2) 0 (St.init.nRx + 10)
      = (List.range 512).map (fun i => (10 + i) % 256) :=
  ⟨⟨by decide, by decide, by decide, by decide⟩,
   C1_read_window envC1 0 devC 0 10 5 St.init (by decide) (by decide)
     (by decide) (by decide),
   C1_read_window envC1 0 devC 0 0 512 St.init (by decide) (by decide)
     (by decide) (by decide),
   by decide, by decide⟩

/-- C2: every Project_2B SD_Read or SD_Write call with sector beyond
last_sector, and every SD_Read call with cnt = 0, answers SD_PARERR with
the transport state returned exactly as given — no byte exchange, no
chip-select change, no timer operation — and the device untouched; the
Project_2A FSM entry steps (state S1) behave the same way, only updating
the FSM's own statics (res = SD_ERROR and the reset destination pointer,
assigned before the check in the source). -/
theorem C2_param_errors (env : Env) (fuel : ℕ) (dev : SD_DEV) (dat : ℕ → ℕ)
    (sector ofs cnt sector2 ofs2 cnt2 : ℕ) (r : RdA) (w : WrA) (s : St)
    (hbad : sector > dev.last_sector) (hz : cnt2 = 0)
    (hr : r.state = FsmS.S1) (hw : w.state = FsmS.S1) :
    SD_Read env fuel dev sector ofs cnt s = some (SD_PARERR, [], dev, s) ∧
    SD_Read env fuel dev sector2 ofs2 cnt2 s = some (SD_PARERR, [], dev, s) ∧
    SD_Write env fuel dev dat sector s = some (SD_PARERR, dev, s) ∧
    SD_Read_step env dev sector ofs cnt r s
      = (SD_PARERR, 0, { r with res := SD_ERROR, out := [] }, dev, s) ∧
    SD_Read_step env dev sector2 ofs2 cnt2 r s
      = (SD_PARERR, 0, { r with res := SD_ERROR, out := [] }, dev, s) ∧
    SD_Write_step env dev dat sector w s = (SD_PARERR, 0, w, dev, s) := by
  obtain ⟨rst, rres, rtkn, rbn, rout⟩ := r
  obtain ⟨wst, widx, wline⟩ := w
  simp only at hr hw
  subst hr hw hz
  refine ⟨?_, ?_, ?_, ?_, ?_, ?_⟩
  · simp only [SD_Read]
    rw [if_pos (Or.inl hbad)]
  · simp only [SD_Read, eq_self_iff_true, or_true, if_true]
  · simp only [SD_Write]
    rw [if_pos hbad]
  · simp only [SD_Read_step]
    rw [if_pos (Or.inl hbad)]
  · simp only [SD_Read_step, eq_self_iff_true, or_true, if_true]
  · simp only [SD_Write_step]
    rw [if_pos hbad]

/-- C2 witness: with last_sector = 100, a read or write of sector 101 and a
read of count 0 each answer SD_PARERR and leave the transport state
exactly as given, in the blocking and the FSM implementation alike. -/
theorem C2_param_errors_witness :
    ((101 : ℕ) > devC.last_sector ∧ (0 : ℕ) = 0 ∧
      RdA.init.state = FsmS.S1 ∧ WrA.init.state = FsmS.S1) ∧
    (SD_Read envDead 1 devC 101 0 512 St.init = some (SD_PARERR, [], devC, St.init) ∧
     SD_Read envDead 1 devC 0 0 0 St.init = some (SD_PARERR, [], devC, St.init) ∧
     SD_Write envDead 1 devC datZ 101 St.init = some (SD_PARERR, devC, St.init) ∧
     SD_Read_step envDead devC 101 0 512 RdA.init St.init
       = (SD_PARERR, 0, { RdA.init with res := SD_ERROR, out := [] }, devC, St.init) ∧
     SD_Read_step envDead devC 0 0 0 RdA.init St.init
       = (SD_PARERR, 0, { RdA.init with res := SD_ERROR, out := [] }, devC, St.init) ∧
     SD_Write_step envDead devC datZ 101 WrA.init St.init
       = (SD_PARERR, 0, WrA.init, devC, St.init)) :=
  ⟨⟨by decide, rfl, rfl, rfl⟩,
   C2_param_errors envDead 1 devC datZ 101 0 512 0 0 0 RdA.init WrA.init St.init
     (by decide) rfl rfl rfl⟩

/-! Behaviour of the response wait on a dead (all-0xFF) transport. -/

theorem cmdRespLoop_ff (env : Env) (hff : ∀ n, env.rx n = 0xFF) : ∀ f s,
    (cmdRespLoop env f s).1 = 0xFF := by
  intro f
  induction f with
  | zero =>
    intro s
    simp [cmdRespLoop, hff]
  | succ f ih =>
    intro s
    simp only [cmdRespLoop, SPI_RW_fst, hff]
    norm_num
    by_cases hq : (SPI_Timer_Status (SPI_RW env 0xFF s).2).1 = true
    · simp [hq, ih]
    · simp [hq]

/-- C10: SD_Status answers SD_OK exactly when the R1 response byte to its
CMD0 is non-zero and SD_NORESPONSE exactly when that byte is zero; in
particular on a transport where no card answers (every byte reads 0xFF,
so the response stays 0xFF) SD_Status reports SD_OK, whatever the timer
behaviour. -/
theorem C10_status_inversion :
    (∀ (env : Env) (s : St),
      ((SD_Status env s).1 = SD_OK ↔ (__SD_Send_Cmd env CMD0 0 s).1 ≠ 0) ∧
      ((SD_Status env s).1 = SD_NORESPONSE ↔ (__SD_Send_Cmd env CMD0 0 s).1 = 0)) ∧
    (∀ (fl : ℕ → ℕ) (tf : ℕ) (s : St),
      (SD_Status { rx := fun _ => 0xFF, fuel := fl, tickFreq := tf } s).1 = SD_OK) := by
  constructor
  · intro env s
    by_cases h : (__SD_Send_Cmd env CMD0 0 s).1 = 0 <;> simp [SD_Status, h]
  · intro fl tf s
    have hff : ∀ n, ({ rx := fun _ => 0xFF, fuel := fl, tickFreq := tf } : Env).rx n = 0xFF :=
      fun _ => rfl
    have h : (__SD_Send_Cmd { rx := fun _ => 0xFF, fuel := fl, tickFreq := tf } CMD0 0 s).1 = 0xFF := by
      rw [sendCmd_plain _ _ _ _ (by decide)]
      simp only [sendCmdFrame]
      exact cmdRespLoop_ff _ hff _ _
    simp [SD_Status, h]

/-! Non-termination of the unbounded waits of Project_2B on a card that
never becomes ready. -/

theorem writeLoop_nRx (env : Env) (dat : ℕ → ℕ) : ∀ r idx s,
    (writeLoop env dat r idx s).nRx = s.nRx + r := by
  intro r
  induction r with
  | zero => intro idx s; simp [writeLoop]
  | succ r ih => intro idx s; simp [writeLoop, ih]; omega

theorem busyLoop_zero (env : Env) : ∀ f s,
    (∀ n, s.nRx ≤ n → env.rx n % 256 = 0) → busyLoop env f s = none := by
  intro f
  induction f with
  | zero => intro s _; rfl
  | succ f ih =>
    intro s h
    have h0 : env.rx s.nRx % 256 = 0 := h s.nRx le_rfl
    simp only [busyLoop, SPI_RW_fst, h0, if_pos rfl]
    exact ih _ (fun n hn => h n (by simp at hn ⊢; omega))

theorem csdWait_ff (env : Env) : ∀ f s,
    (∀ n, s.nRx ≤ n → env.rx n % 256 = 0xFF) → csdWait env f s = none := by
  intro f
  induction f with
  | zero => intro s _; rfl
  | succ f ih =>
    intro s h
    have h0 : env.rx s.nRx % 256 = 0xFF := h s.nRx le_rfl
    simp only [csdWait, SPI_RW_fst, h0, if_pos rfl]
    exact ih _ (fun n hn => h n (by simp at hn ⊢; omega))

/-- A Project_2B read whose command is accepted but whose data-start token
never arrives (every byte from exchange base+9 on reads 0xFF) never
returns, for any fuel. -/
theorem read_no_token (env : Env) (fuel : ℕ) (dev : SD_DEV)
    (sector ofs cnt : ℕ) (s : St)
    (hsec : sector ≤ dev.last_sector) (hcnt : 0 < cnt)
    (hresp : env.rx (s.nRx + 8) % 256 = 0)
    (hff : ∀ n, s.nRx + 9 ≤ n → env.rx n % 256 = 0xFF) :
    SD_Read env fuel dev sector ofs cnt s = none := by
  have h80 : env.rx (s.nRx + 8) % 256 &&& 0x80 = 0 := by rw [hresp]; decide
  have hnrx := sendCmdFrame_nRx env CMD17 sector s h80
  have hcall : ¬(sector > dev.last_sector ∨ cnt = 0) := by omega
  have hplain : __SD_Send_Cmd env CMD17 sector s = sendCmdFrame env CMD17 sector s :=
    sendCmd_plain env CMD17 sector s (by decide)
  have hfst : (sendCmdFrame env CMD17 sector s).1 = 0 := by
    rw [sendCmdFrame_fst env CMD17 sector s h80, hresp]
  have htl : tokenLoop env fuel (sendCmdFrame env CMD17 sector s).2 = none :=
    tokenLoop_ff env fuel _ (fun n hn => hff n (by rw [hnrx] at hn; exact hn))
  simp only [SD_Read, hplain, hfst, hcall, if_false, eq_self_iff_true, if_true,
    htl, Option.none_bind]

/-- The pre-busy-phase transport state of a Project_2B write whose command
and data block are both accepted: 8 frame bytes, the response, the 0xFE
token, 512 data bytes, 2 CRC bytes and the data-response token. -/
theorem write_pre_busy (env : Env) (fuel : ℕ) (dev : SD_DEV) (dat : ℕ → ℕ)
    (sector : ℕ) (s : St)
    (hsec : sector ≤ dev.last_sector)
    (hresp : env.rx (s.nRx + 8) % 256 = 0)
    (htok : env.rx (s.nRx + 524) % 256 &&& 0x1F = 0x05) :
    SD_Write env fuel dev dat sector s =
      (busyLoop env fuel
        (SPI_RW env 0xFF
          (SPI_RW env 0xFF
            (SPI_RW env 0xFF
              (writeLoop env dat SD_BLK_SIZE 0
                (SPI_RW env 0xFE (sendCmdFrame env CMD24 sector s).2).2)).2).2).2).bind
        fun b =>
          if b.1 = 0 then
            some (SD_BUSY, { dev with debug_write := dev.debug_write + 1 }, b.2)
          else
            some (SD_OK, { dev with debug_write := dev.debug_write + 1 }, b.2) := by
  have h80 : env.rx (s.nRx + 8) % 256 &&& 0x80 = 0 := by rw [hresp]; decide
  have hnrx := sendCmdFrame_nRx env CMD24 sector s h80
  have hcall : ¬sector > dev.last_sector := by omega
  have hplain : __SD_Send_Cmd env CMD24 sector s = sendCmdFrame env CMD24 sector s :=
    sendCmd_plain env CMD24 sector s (by decide)
  have hfst : (sendCmdFrame env CMD24 sector s).1 = 0 := by
    rw [sendCmdFrame_fst env CMD24 sector s h80, hresp]
  have hpre : ((SPI_RW env 0xFF
      (SPI_RW env 0xFF
        (writeLoop env dat SD_BLK_SIZE 0
          (SPI_RW env 0xFE (sendCmdFrame env CMD24 sector s).2).2)).2).2).nRx
      = s.nRx + 524 := by
    simp only [SPI_RW_nRx, writeLoop_nRx, hnrx, SD_BLK_SIZE]
  have htokv : ¬(env.rx (((SPI_RW env 0xFF
      (SPI_RW env 0xFF
        (writeLoop env dat SD_BLK_SIZE 0
          (SPI_RW env 0xFE (sendCmdFrame env CMD24 sector s).2).2)).2).2).nRx) % 256
        &&& 0x1F ≠ 0x05) := by
    rw [hpre, htok]
    simp
  simp only [SD_Write, hplain, hfst, hcall, if_false, eq_self_iff_true, if_true,
    SPI_RW_fst, htokv]

/-- A Project_2B write whose data block is accepted against a card that
never clears its busy line (every byte from exchange base+525 on reads 0)
never returns, for any fuel. -/
theorem write_busy_forever (env : Env) (fuel : ℕ) (dev : SD_DEV) (dat : ℕ → ℕ)
    (sector : ℕ) (s : St)
    (hsec : sector ≤ dev.last_sector)
    (hresp : env.rx (s.nRx + 8) % 256 = 0)
    (htok : env.rx (s.nRx + 524) % 256 &&& 0x1F = 0x05)
    (hzero : ∀ n, s.nRx + 525 ≤ n → env.rx n % 256 = 0) :
    SD_Write env fuel dev dat sector s = none := by
  rw [write_pre_busy env fuel dev dat sector s hsec hresp htok]
  have h80 : env.rx (s.nRx + 8) % 256 &&& 0x80 = 0 := by rw [hresp]; decide
  have hnrx := sendCmdFrame_nRx env CMD24 sector s h80
  rw [busyLoop_zero env fuel _ ?_]
  · rfl
  · intro n hn
    refine hzero n ?_
    simp only [SPI_RW_nRx, writeLoop_nRx, hnrx, SD_BLK_SIZE] at hn
    omega

/-- The CSD query against a card that accepts CMD9 but never produces the
CSD response (every byte from exchange base+9 on reads 0xFF) never
returns, for any fuel. -/
theorem sectors_no_resp (env : Env) (fuel : ℕ) (dev : SD_DEV) (s : St)
    (hresp : env.rx (s.nRx + 8) % 256 = 0)
    (hff : ∀ n, s.nRx + 9 ≤ n → env.rx n % 256 = 0xFF) :
    __SD_Sectors env fuel dev s = none := by
  have h80 : env.rx (s.nRx + 8) % 256 &&& 0x80 = 0 := by rw [hresp]; decide
  have hnrx := sendCmdFrame_nRx env CMD9 0 s h80
  have hplain : __SD_Send_Cmd env CMD9 0 s = sendCmdFrame env CMD9 0 s :=
    sendCmd_plain env CMD9 0 s (by decide)
  have hfst : (sendCmdFrame env CMD9 0 s).1 = 0 := by
    rw [sendCmdFrame_fst env CMD9 0 s h80, hresp]
  have hcw : csdWait env fuel (sendCmdFrame env CMD9 0 s).2 = none :=
    csdWait_ff env fuel _ (fun n hn => hff n (by rw [hnrx] at hn; exact hn))
  simp only [__SD_Sectors, hplain, hfst, eq_self_iff_true, if_true, hcw,
    Option.none_bind]

/-- C3: the Project_2B implementation removed the timers from its
readiness polls, so they are not bounded: with the command accepted, a
card that never sends the data-start token makes SD_Read poll forever, a
card that never clears its busy line makes SD_Write poll forever, and a
card that never produces its CSD response makes the __SD_Sectors wait of
initialization poll forever — for every fuel the embedding yields no
result, instead of the terminal failure code the claim requires. -/
theorem C3_unbounded_polls :
    (∀ fuel, SD_Read envAcceptFF fuel devC 0 0 512 St.init = none) ∧
    (∀ fuel, SD_Write envBusyF fuel devC datZ 0 St.init = none) ∧
    (∀ fuel, __SD_Sectors envAcceptFF fuel devC St.init = none) := by
  refine ⟨fun fuel => ?_, fun fuel => ?_, fun fuel => ?_⟩
  · refine read_no_token envAcceptFF fuel devC 0 0 512 St.init (by decide)
      (by decide) (by decide) ?_
    intro n hn
    have : n ≠ 8 := by simp [St.init] at hn; omega
    simp [envAcceptFF, this]
  · refine write_busy_forever envBusyF fuel devC datZ 0 St.init (by decide)
      (by decide) (by decide) ?_
    intro n hn
    have : n ≠ 524 := by simp [St.init] at hn; omega
    simp [envBusyF, this]
  · refine sectors_no_resp envAcceptFF fuel devC St.init (by decide) ?_
    intro n hn
    have : n ≠ 8 := by simp [St.init] at hn; omega
    simp [envAcceptFF, this]

theorem writeLoop_release (env : Env) (dat : ℕ → ℕ) : ∀ r idx s,
    Ev.release ∈ (writeLoop env dat r idx s).evs ↔ Ev.release ∈ s.evs := by
  intro r
  induction r with
  | zero => intro idx s; simp [writeLoop]
  | succ r ih => intro idx s; simp [writeLoop, ih]

set_option maxRecDepth 40000 in
/-- C4 counterexample: a concrete complete Project_2B write whose CMD24 is
accepted and whose data-response token has low 5 bits 0x1F ≠ 0x05 returns
SD_REJECT after exactly 525 exchanges, and its transport trace contains no
SPI_Release call — the source's reject path (and in fact all of SD_Write)
never releases the bus, refuting the claim's release clause. -/
theorem C4_reject_counterexample :
    (SD_Write envRej 1 devC datZ 0 St.init).map
        (fun x => (x.1, x.2.1, x.2.2.nRx, x.2.2.evs.contains Ev.release)) =
      some (SD_REJECT, devC, 525, false) := by decide

/-- C4 amended: for every write whose command is accepted and whose
data-response token has low 5 bits different from 0b00101, Project_2B
SD_Write returns SD_REJECT, leaves the device untouched, and never enters
the busy-poll phase — the run ends after exactly base+525 exchanges, the
data-response token being the last byte exchanged — but it does not
release the bus: no SPI_Release event is added to the trace. -/
theorem C4_reject_no_release (env : Env) (fuel : ℕ) (dev : SD_DEV)
    (dat : ℕ → ℕ) (sector : ℕ) (s : St)
    (hsec : sector ≤ dev.last_sector)
    (hresp : env.rx (s.nRx + 8) % 256 = 0)
    (htok : env.rx (s.nRx + 524) % 256 &&& 0x1F ≠ 0x05)
    (hrel : Ev.release ∉ s.evs) :
    ∃ st2, SD_Write env fuel dev dat sector s = some (SD_REJECT, dev, st2) ∧
      st2.nRx = s.nRx + 525 ∧ Ev.release ∉ st2.evs := by
  have h80 : env.rx (s.nRx + 8) % 256 &&& 0x80 = 0 := by rw [hresp]; decide
  have hnrx := sendCmdFrame_nRx env CMD24 sector s h80
  have hcall : ¬sector > dev.last_sector := by omega
  have hplain : __SD_Send_Cmd env CMD24 sector s = sendCmdFrame env CMD24 sector s :=
    sendCmd_plain env CMD24 sector s (by decide)
  have hfst : (sendCmdFrame env CMD24 sector s).1 = 0 := by
    rw [sendCmdFrame_fst env CMD24 sector s h80, hresp]
  have hpre : ((SPI_RW env 0xFF
      (SPI_RW env 0xFF
        (writeLoop env dat SD_BLK_SIZE 0
          (SPI_RW env 0xFE (sendCmdFrame env CMD24 sector s).2).2)).2).2).nRx
      = s.nRx + 524 := by
    simp only [SPI_RW_nRx, writeLoop_nRx, hnrx, SD_BLK_SIZE]
  have htokv : env.rx (((SPI_RW env 0xFF
      (SPI_RW env 0xFF
        (writeLoop env dat SD_BLK_SIZE 0
          (SPI_RW env 0xFE (sendCmdFrame env CMD24 sector s).2).2)).2).2).nRx) % 256
        &&& 0x1F ≠ 0x05 := by
    rw [hpre]
    exact htok
  have heq : SD_Write env fuel dev dat sector s =
      some (SD_REJECT, dev,
        (SPI_RW env 0xFF
          (SPI_RW env 0xFF
            (SPI_RW env 0xFF
              (writeLoop env dat SD_BLK_SIZE 0
                (SPI_RW env 0xFE (sendCmdFrame env CMD24 sector s).2).2)).2).2).2) := by
    simp only [SD_Write, hplain, hfst, hcall, if_false, eq_self_iff_true, if_true,
      SPI_RW_fst]
    rw [if_pos htokv]
  refine ⟨_, heq, ?_, ?_⟩
  · simp only [SPI_RW_nRx, writeLoop_nRx, hnrx, SD_BLK_SIZE]
  · simp only [SPI_RW_evs, List.mem_cons, writeLoop_release, sendCmdFrame_release]
    simp [hrel]

/-- C4 witness: the amended statement holds at the concrete rejected write
of the counterexample environment. -/
theorem C4_reject_no_release_witness :
    ((0 : ℕ) ≤ devC.last_sector ∧
      envRej.rx (St.init.nRx + 8) % 256 = 0 ∧
      envRej.rx (St.init.nRx + 524) % 256 &&& 0x1F ≠ 0x05 ∧
      Ev.release ∉ St.init.evs) ∧
    (∃ st2, SD_Write envRej 1 devC datZ 0 St.init = some (SD_REJECT, devC, st2) ∧
      st2.nRx = St.init.nRx + 525 ∧ Ev.release ∉ st2.evs) :=
  ⟨⟨by decide, by decide, by decide, by decide⟩,
   C4_reject_no_release envRej 1 devC datZ 0 St.init (by decide) (by decide)
     (by decide) (by decide)⟩

set_option maxRecDepth 40000 in
/-- C9 counterexample: with both debug counters at 0, a Project_2B read
whose CMD17 is rejected (dead transport, R1 stays 0xFF) completes with
SD_ERROR yet increments the read counter to 1 — the claim says a command
rejection must not be counted — while a write accepted at command level
whose data-response token rejects the block returns SD_REJECT with the
write counter still 0 — the claim says a token-level failure after command
acceptance must be counted. -/
theorem C9_counters_counterexample :
    ((SD_Read envDead 1 devC 0 0 512 St.init).map
        (fun x => (x.1, x.2.2.1.debug_read, x.2.2.1.debug_write)) =
      some (SD_ERROR, 1, 0)) ∧
    ((SD_Write envRej 1 devC datZ 0 St.init).map
        (fun x => (x.1, x.2.1.debug_write)) =
      some (SD_REJECT, 0)) := by
  constructor
  · decide
  · decide

/-- C9 amended: in Project_2B, every completing SD_Read that passes
parameter validation increments the device's read counter exactly once,
whatever its outcome — including rejection of CMD17 itself — and never
touches the write counter; every completing SD_Write increments the write
counter exactly once precisely when it reaches the busy-poll phase
(outcome SD_OK or SD_BUSY), and not on SD_PARERR, SD_ERROR (command
rejected) or SD_REJECT (data-response token rejected), and never touches
the read counter.  The counters are only ever incremented, except that a
successful SD_Init re-initialization zeroes both. -/
theorem C9_counters (env : Env) (fuel : ℕ) (dev : SD_DEV)
    (sector ofs cnt : ℕ) (s : St) (res : SDRESULTS) (out : List ℕ)
    (dev2 : SD_DEV) (st2 : St)
    (envB : Env) (fuelB : ℕ) (devB : SD_DEV) (datB : ℕ → ℕ) (sectorB : ℕ)
    (sB : St) (resB : SDRESULTS) (devB2 : SD_DEV) (stB2 : St)
    (hr : SD_Read env fuel dev sector ofs cnt s = some (res, out, dev2, st2))
    (hw : SD_Write envB fuelB devB datB sectorB sB = some (resB, devB2, stB2)) :
    (dev2.debug_read
      = if res = SD_PARERR then dev.debug_read else dev.debug_read + 1) ∧
    dev2.debug_write = dev.debug_write ∧
    (devB2.debug_write
      = if resB = SD_OK ∨ resB = SD_BUSY then devB.debug_write + 1
        else devB.debug_write) ∧
    devB2.debug_read = devB.debug_read := by
  have hread : (dev2.debug_read
      = if res = SD_PARERR then dev.debug_read else dev.debug_read + 1) ∧
      dev2.debug_write = dev.debug_write := by
    by_cases hp : sector > dev.last_sector ∨ cnt = 0
    · simp only [SD_Read] at hr
      rw [if_pos hp] at hr
      simp only [Option.some.injEq, Prod.mk.injEq] at hr
      obtain ⟨h1, -, h2, -⟩ := hr
      subst h1 h2
      simp
    · simp only [SD_Read] at hr
      rw [if_neg hp] at hr
      by_cases hc : (__SD_Send_Cmd env CMD17 sector s).1 = 0
      · rw [if_pos hc] at hr
        rcases htk : tokenLoop env fuel (__SD_Send_Cmd env CMD17 sector s).2 with _ | q
        · rw [htk] at hr
          simp at hr
        · rw [htk] at hr
          simp only [Option.some_bind] at hr
          by_cases hT : q.1 = 0xFE
          · rw [if_pos hT] at hr
            simp only [Option.some.injEq, Prod.mk.injEq] at hr
            obtain ⟨h1, -, h2, -⟩ := hr
            subst h1 h2
            simp
          · rw [if_neg hT] at hr
            simp only [Option.some.injEq, Prod.mk.injEq] at hr
            obtain ⟨h1, -, h2, -⟩ := hr
            subst h1 h2
            simp
      · rw [if_neg hc] at hr
        simp only [Option.some.injEq, Prod.mk.injEq] at hr
        obtain ⟨h1, -, h2, -⟩ := hr
        subst h1 h2
        simp
  have hwrite : (devB2.debug_write
      = if resB = SD_OK ∨ resB = SD_BUSY then devB.debug_write + 1
        else devB.debug_write) ∧
      devB2.debug_read = devB.debug_read := by
    by_cases hp : sectorB > devB.last_sector
    · simp only [SD_Write] at hw
      rw [if_pos hp] at hw
      simp only [Option.some.injEq, Prod.mk.injEq] at hw
      obtain ⟨h1, h2, -⟩ := hw
      subst h1 h2
      simp
    · simp only [SD_Write] at hw
      rw [if_neg hp] at hw
      by_cases hc : (__SD_Send_Cmd envB CMD24 sectorB sB).1 = 0
      · rw [if_pos hc] at hw
        by_cases hT : (SPI_RW envB 0xFF
            (SPI_RW envB 0xFF
              (SPI_RW envB 0xFF
                (writeLoop envB datB SD_BLK_SIZE 0
                  (SPI_RW envB 0xFE
                    (__SD_Send_Cmd envB CMD24 sectorB sB).2).2)).2).2).1
              &&& 0x1F ≠ 0x05
        · rw [if_pos hT] at hw
          simp only [Option.some.injEq, Prod.mk.injEq] at hw
          obtain ⟨h1, h2, -⟩ := hw
          subst h1 h2
          simp
        · rw [if_neg hT] at hw
          rcases hb : busyLoop envB fuelB (SPI_RW envB 0xFF
              (SPI_RW envB 0xFF
                (SPI_RW envB 0xFF
                  (writeLoop envB datB SD_BLK_SIZE 0
                    (SPI_RW envB 0xFE
                      (__SD_Send_Cmd envB CMD24 sectorB sB).2).2)).2).2).2
              with _ | b
          · rw [hb] at hw
            simp at hw
          · rw [hb] at hw
            simp only [Option.some_bind] at hw
            by_cases hl : b.1 = 0
            · rw [if_pos hl] at hw
              simp only [Option.some.injEq, Prod.mk.injEq] at hw
              obtain ⟨h1, h2, -⟩ := hw
              subst h1 h2
              simp
            · rw [if_neg hl] at hw
              simp only [Option.some.injEq, Prod.mk.injEq] at hw
              obtain ⟨h1, h2, -⟩ := hw
              subst h1 h2
              simp
      · rw [if_neg hc] at hw
        simp only [Option.some.injEq, Prod.mk.injEq] at hw
        obtain ⟨h1, h2, -⟩ := hw
        subst h1 h2
        simp
  exact ⟨hread.1, hread.2, hwrite.1, hwrite.2⟩

set_option maxRecDepth 40000 in
/-- C9 witness: the amended counter law applied to a concrete successful
read (data pattern card) and a concrete write whose busy line clears at
the first poll. -/
theorem C9_counters_witness :
    (SD_Read envC1 1 devC 0 0 512 St.init).map
        (fun x => (x.1, x.2.2.1.debug_read, x.2.2.1.debug_write)) =
      some (SD_OK, 1, 0) ∧
    (SD_Write envWrOk 1 devC datZ 0 St.init).map
        (fun x => (x.1, x.2.1.debug_write, x.2.1.debug_read)) =
      some (SD_OK, 1, 0) ∧
    (((SD_Read envC1 1 devC 0 0 512 St.init).get (by decide)).2.2.1.debug_read
        = if ((SD_Read envC1 1 devC 0 0 512 St.init).get (by decide)).1 = SD_PARERR
          then devC.debug_read else devC.debug_read + 1) ∧
    ((SD_Read envC1 1 devC 0 0 512 St.init).get (by decide)).2.2.1.debug_write
        = devC.debug_write ∧
    (((SD_Write envWrOk 1 devC datZ 0 St.init).get (by decide)).2.1.debug_write
        = if ((SD_Write envWrOk 1 devC datZ 0 St.init).get (by decide)).1 = SD_OK
             ∨ ((SD_Write envWrOk 1 devC datZ 0 St.init).get (by decide)).1 = SD_BUSY
          then devC.debug_write + 1 else devC.debug_write) ∧
    ((SD_Write envWrOk 1 devC datZ 0 St.init).get (by decide)).2.1.debug_read
        = devC.debug_read :=
  ⟨by decide, by decide,
   (C9_counters envC1 1 devC 0 0 512 St.init _ _ _ _
      envWrOk 1 devC datZ 0 St.init _ _ _
      (Option.some_get (by decide)).symm (Option.some_get (by decide)).symm).1,
   (C9_counters envC1 1 devC 0 0 512 St.init _ _ _ _
      envWrOk 1 devC datZ 0 St.init _ _ _
      (Option.some_get (by decide)).symm (Option.some_get (by decide)).symm).2.1,
   (C9_counters envC1 1 devC 0 0 512 St.init _ _ _ _
      envWrOk 1 devC datZ 0 St.init _ _ _
      (Option.some_get (by decide)).symm (Option.some_get (by decide)).symm).2.2.1,
   (C9_counters envC1 1 devC 0 0 512 St.init _ _ _ _
      envWrOk 1 devC datZ 0 St.init _ _ _
      (Option.some_get (by decide)).symm (Option.some_get (by decide)).symm).2.2.2⟩

/-- Busy-poll phase of the Project_2A write FSM from state S5: with F
still-running answers left in the timer arming, the machine re-polls the
busy line while the byte reads 0 and the timer runs, then moves to S6
after incrementing the write counter; the completed run reports SD_BUSY
exactly when the held byte and every byte polled before the timer expired
read 0. -/
theorem driveW_S5 (env : Env) (dat : ℕ → ℕ) (sector : ℕ) : ∀ F (dev : SD_DEV)
    (s : St) (idx line n : ℕ), s.tFuel = F → F + 2 ≤ n →
    (driveW env dat sector n ⟨FsmS.S5, idx, line⟩ dev s).map
        (fun x => (x.1, x.2.2.1.debug_write)) =
      some ((if line = 0 ∧ (∀ i, i < F → env.rx (s.nRx + i) % 256 = 0)
             then SD_BUSY else SD_OK), dev.debug_write + 1) := by
  intro F
  induction F with
  | zero =>
    intro dev s idx line n hF hn
    obtain ⟨n1, rfl⟩ : ∃ n1, n = n1 + 1 := ⟨n - 1, by omega⟩
    obtain ⟨n2, rfl⟩ : ∃ n2, n1 = n2 + 1 := ⟨n1 - 1, by omega⟩
    by_cases hl : line = 0
    · subst hl
      have hq : (SPI_Timer_Status s).1 = false := SPI_Timer_Status_zero s hF
      simp only [driveW, SD_Write_step, hq, Bool.false_eq_true, if_false,
        eq_self_iff_true, if_true]
      simp
    · simp only [driveW, SD_Write_step, if_neg hl, eq_self_iff_true, if_true]
      simp [hl]
  | succ F ih =>
    intro dev s idx line n hF hn
    obtain ⟨n1, rfl⟩ : ∃ n1, n = n1 + 1 := ⟨n - 1, by omega⟩
    by_cases hl : line = 0
    · subst hl
      have hq : (SPI_Timer_Status s).1 = true :=
        SPI_Timer_Status_pos s (by omega)
      simp only [driveW, SD_Write_step, hq, SPI_RW_fst, eq_self_iff_true,
        if_true, true_and]
      rw [ih dev (SPI_RW env 0xFF (SPI_Timer_Status s).2).2 idx
        (env.rx ((SPI_Timer_Status s).2).nRx % 256) n1 (by simp [hF]) (by omega)]
      by_cases hc : ∀ i, i < F + 1 → env.rx (s.nRx + i) % 256 = 0
      · have ha : env.rx ((SPI_Timer_Status s).2).nRx % 256 = 0 := by
          have := hc 0 (by omega)
          simpa using this
        have hb : ∀ i, i < F →
            env.rx ((SPI_RW env 0xFF (SPI_Timer_Status s).2).2.nRx + i) % 256 = 0 := by
          intro i hi
          have := hc (i + 1) (by omega)
          have e : s.nRx + 1 + i = s.nRx + (i + 1) := by omega
          simpa [e] using this
        rw [if_pos ⟨ha, hb⟩, if_pos hc]
      · have h1 : ¬(env.rx ((SPI_Timer_Status s).2).nRx % 256 = 0 ∧
            (∀ i, i < F →
              env.rx ((SPI_RW env 0xFF (SPI_Timer_Status s).2).2.nRx + i) % 256 = 0)) := by
          rintro ⟨ha, hb⟩
          refine hc (fun i hi => ?_)
          rcases Nat.eq_zero_or_pos i with rfl | hip
          · simpa using ha
          · have := hb (i - 1) (by omega)
            have e : s.nRx + 1 + (i - 1) = s.nRx + i := by omega
            simpa [e] using this
        rw [if_neg h1, if_neg hc]
    · obtain ⟨n2, rfl⟩ : ∃ n2, n1 = n2 + 1 := ⟨n1 - 1, by omega⟩
      simp only [driveW, SD_Write_step, if_neg hl, eq_self_iff_true, if_true]
      simp [hl]

/-- C5: in the Project_2A write FSM, once the data-response token is
accepted (state S4), the busy line is polled under the timer armed in S4:
the completed run returns SD_BUSY exactly when the byte read in S4 and
every byte polled while the timer still ran read 0 — that is, SD_BUSY is
reported only once the timer has expired with the card still busy, never
before — and returns SD_OK as soon as a non-zero byte arrives in time; on
both exits the device's write debug counter is incremented exactly once
(the source increments it on the shared S5 exit). -/
theorem C5_busy_timeout (env : Env) (dat : ℕ → ℕ) (sector idx line n : ℕ)
    (dev : SD_DEV) (s : St) (hn : env.fuel s.nTimer + 3 ≤ n) :
    (driveW env dat sector n ⟨FsmS.S4, idx, line⟩ dev s).map
        (fun x => (x.1, x.2.2.1.debug_write)) =
      some ((if ∀ i, i ≤ env.fuel s.nTimer → env.rx (s.nRx + i) % 256 = 0
             then SD_BUSY else SD_OK), dev.debug_write + 1) := by
  obtain ⟨n1, rfl⟩ : ∃ n1, n = n1 + 1 := ⟨n - 1, by omega⟩
  simp only [driveW, SD_Write_step, SPI_RW_fst, eq_self_iff_true, if_true]
  rw [driveW_S5 env dat sector (env.fuel s.nTimer) dev
    (SPI_RW env 0xFF (SPI_Timer_On env SD_IO_WRITE_TIMEOUT_WAIT s)).2 idx
    (env.rx (SPI_Timer_On env SD_IO_WRITE_TIMEOUT_WAIT s).nRx % 256) n1
    (by simp) (by omega)]
  by_cases hc : ∀ i, i ≤ env.fuel s.nTimer → env.rx (s.nRx + i) % 256 = 0
  · have ha : env.rx (SPI_Timer_On env SD_IO_WRITE_TIMEOUT_WAIT s).nRx % 256 = 0 := by
      have := hc 0 (by omega)
      simpa using this
    have hb : ∀ i, i < env.fuel s.nTimer →
        env.rx ((SPI_RW env 0xFF
          (SPI_Timer_On env SD_IO_WRITE_TIMEOUT_WAIT s)).2.nRx + i) % 256 = 0 := by
      intro i hi
      have := hc (i + 1) (by omega)
      have e : s.nRx + 1 + i = s.nRx + (i + 1) := by omega
      simpa [e] using this
    rw [if_pos ⟨ha, hb⟩, if_pos hc]
  · have h1 : ¬(env.rx (SPI_Timer_On env SD_IO_WRITE_TIMEOUT_WAIT s).nRx % 256 = 0 ∧
        (∀ i, i < env.fuel s.nTimer →
          env.rx ((SPI_RW env 0xFF
            (SPI_Timer_On env SD_IO_WRITE_TIMEOUT_WAIT s)).2.nRx + i) % 256 = 0)) := by
      rintro ⟨ha, hb⟩
      refine hc (fun i hi => ?_)
      rcases Nat.eq_zero_or_pos i with rfl | hip
      · simpa using ha
      · have := hb (i - 1) (by omega)
        have e : s.nRx + 1 + (i - 1) = s.nRx + i := by omega
        simpa [e] using this
    rw [if_neg h1, if_neg hc]

/-- C5 witness: a card that stays busy through the whole arming (two polls
granted, every byte 0) makes the FSM run report SD_BUSY with the write
counter incremented, and a card whose second poll reads non-zero makes it
report SD_OK, also counted once; the two concrete runs are also evaluated
directly. -/
theorem C5_busy_timeout_witness :
    (envBusyA.fuel St.init.nTimer + 3 ≤ 5 ∧
      (driveW envBusyA datZ 0 5 ⟨FsmS.S4, 0, 0⟩ devC St.init).map
          (fun x => (x.1, x.2.2.1.debug_write)) =
        some ((if ∀ i, i ≤ envBusyA.fuel St.init.nTimer →
                    envBusyA.rx (St.init.nRx + i) % 256 = 0
               then SD_BUSY else SD_OK), devC.debug_write + 1)) ∧
    (envOkA.fuel St.init.nTimer + 3 ≤ 5 ∧
      (driveW envOkA datZ 0 5 ⟨FsmS.S4, 0, 0⟩ devC St.init).map
          (fun x => (x.1, x.2.2.1.debug_write)) =
        some ((if ∀ i, i ≤ envOkA.fuel St.init.nTimer →
                    envOkA.rx (St.init.nRx + i) % 256 = 0
               then SD_BUSY else SD_OK), devC.debug_write + 1)) ∧
    (driveW envBusyA datZ 0 5 ⟨FsmS.S4, 0, 0⟩ devC St.init).map
        (fun x => (x.1, x.2.2.1.debug_write)) = some (SD_BUSY, 1) ∧
    (driveW envOkA datZ 0 5 ⟨FsmS.S4, 0, 0⟩ devC St.init).map
        (fun x => (x.1, x.2.2.1.debug_write)) = some (SD_OK, 1) :=
  ⟨⟨by decide, C5_busy_timeout envBusyA datZ 0 0 0 5 devC St.init (by decide)⟩,
   ⟨by decide, C5_busy_timeout envOkA datZ 0 0 0 5 devC St.init (by decide)⟩,
   by decide, by decide⟩

/-- C7: the two capacity-decode branches of __SD_Sectors do not both match
the CSD reference sector formulas, so they disagree on units.  For the
version-1 example CSD (C_SIZE = 5, C_SIZE_MULT = 1, READ_BL_LEN = 9) the
code yields 24576 — the card's size in bytes, 512 times the reference
sector count 48 — because the ss /= SD_BLK_SIZE division is commented out.
For a version-2 card the branch yields sectors, matching the reference
when the true C_SIZE field fits 16 bits (the 256 example), but the WORD
C_SIZE truncates the field's upper 6 bits, so for a card with
C_SIZE = 0x10000 the code computes only 1024 sectors instead of the
reference 67109888. -/
theorem C7_csd_units :
    csdDecode SDCT_SD1 csdV1ex = 24576 ∧
    csdRefV1 5 1 9 = 48 ∧
    csdDecode SDCT_SD1 csdV1ex = 512 * csdRefV1 5 1 9 ∧
    csdDecode SDCT_SD1 csdV1ex ≠ csdRefV1 5 1 9 ∧
    refCsizeV2 csdV2small = 256 ∧
    csdDecode SDCT_SD2 csdV2small = csdRefV2 (refCsizeV2 csdV2small) ∧
    refCsizeV2 csdV2ex = 65536 ∧
    csdDecode SDCT_SD2 csdV2ex = 1024 ∧
    csdRefV2 (refCsizeV2 csdV2ex) = 67109888 ∧
    csdDecode SDCT_SD2 csdV2ex ≠ csdRefV2 (refCsizeV2 csdV2ex) := by decide

/-! Dispatcher lemmas: one accepted operation stepped to completion. -/

theorem serverRun_add (ops : ℕ → SDRESULTS × Bool) : ∀ a b x,
    serverRun ops (a + b) x = serverRun ops b (serverRun ops a x) := by
  intro a
  induction a with
  | zero => intro b x; rw [Nat.zero_add]; rfl
  | succ a ih =>
    intro b x
    have : a + 1 + b = (a + b) + 1 := by omega
    rw [this]
    show serverRun ops (a + b) (Task_SD_Server ops x.1 x.2) = _
    rw [ih]
    rfl

theorem serverRun_ops (ops : ℕ → SDRESULTS × Bool) : ∀ m j (gB : SDS_TD)
    (c : SDS_TD) (x : SDRESULTS) (sv : SrvS),
    (sv = SrvS.sInit ∨ sv = SrvS.sRead ∨ sv = SrvS.sWrite) →
    (∀ i, j ≤ i → i < j + m → (ops i).2 = true) →
    (serverRun ops m (gB, ⟨sv, c, x, j⟩)).1 = gB ∧
    (serverRun ops m (gB, ⟨sv, c, x, j⟩)).2.next = sv ∧
    (serverRun ops m (gB, ⟨sv, c, x, j⟩)).2.cur = c ∧
    (serverRun ops m (gB, ⟨sv, c, x, j⟩)).2.calls = j + m := by
  intro m
  induction m with
  | zero => intro j gB c x sv _ _; exact ⟨rfl, rfl, rfl, rfl⟩
  | succ m ih =>
    intro j gB c x sv hsv hrun
    have hstep : Task_SD_Server ops gB ⟨sv, c, x, j⟩
        = (gB, ⟨sv, c, (ops j).1, j + 1⟩) := by
      have hj : (ops j).2 = true := hrun j le_rfl (by omega)
      rcases hsv with h | h | h <;> subst h <;>
        simp only [Task_SD_Server, hj, if_true]
    have : serverRun ops (m + 1) (gB, ⟨sv, c, x, j⟩)
        = serverRun ops m (gB, ⟨sv, c, (ops j).1, j + 1⟩) := by
      show serverRun ops m (Task_SD_Server ops gB ⟨sv, c, x, j⟩) = _
      rw [hstep]
    rw [this]
    have := ih (j + 1) gB c (ops j).1 sv hsv
      (fun i hi1 hi2 => hrun i (by omega) (by omega))
    refine ⟨this.1, this.2.1, this.2.2.1, ?_⟩
    rw [this.2.2.2]
    omega

/-- C8: a well-formed request (code init, read or write) submitted while
the dispatcher is idle is accepted in one step — the shared descriptor is
copied into the local snapshot cur_trans and its Status set busy — the
shared Status then stays busy and the snapshot and state unchanged for
every step strictly between acceptance and completion (steps 1 through
k+1 when the stepped SD operation reports in-progress for its first k
calls), and the completing step writes the operation's result into the
shared ErrorCode, sets Status idle, clears Request, and returns the
dispatcher to its idle state. -/
theorem C8_dispatcher (ops : ℕ → SDRESULTS × Bool) (g0 : SDS_TD) (v0 : Srv)
    (k j : ℕ)
    (hidle : v0.next = SrvS.sIdle) (hcalls : v0.calls = 0)
    (hreq1 : 1 ≤ g0.Request) (hreq3 : g0.Request ≤ 3)
    (hrun : ∀ i, i < k → (ops i).2 = true) (hdone : (ops k).2 = false)
    (hj1 : 1 ≤ j) (hjk : j ≤ k + 1) :
    ((serverRun ops j (g0, v0)).1 = { g0 with Status := STAT_BUSY } ∧
     (serverRun ops j (g0, v0)).2.next = Req_to_State g0.Request ∧
     (serverRun ops j (g0, v0)).2.cur = g0) ∧
    ((serverRun ops (k + 2) (g0, v0)).1
       = { g0 with Request := REQ_NONE, Status := STAT_IDLE,
                   ErrorCode := (ops k).1 } ∧
     (serverRun ops (k + 2) (g0, v0)).2.next = SrvS.sIdle) := by
  obtain ⟨vn, vc, vr, vcl⟩ := v0
  simp only at hidle hcalls
  subst hidle hcalls
  have hne : ¬g0.Request = REQ_NONE := by simp only [REQ_NONE]; omega
  have hle : g0.Request ≤ REQ_WRITE := by simpa [REQ_WRITE] using hreq3
  have hacc : Task_SD_Server ops g0 ⟨SrvS.sIdle, vc, vr, 0⟩
      = ({ g0 with Status := STAT_BUSY },
         ⟨Req_to_State g0.Request, g0, vr, 0⟩) := by
    simp only [Task_SD_Server]
    rw [if_pos hne, if_pos hle]
  have hsv : Req_to_State g0.Request = SrvS.sInit
      ∨ Req_to_State g0.Request = SrvS.sRead
      ∨ Req_to_State g0.Request = SrvS.sWrite := by
    have : g0.Request = 1 ∨ g0.Request = 2 ∨ g0.Request = 3 := by omega
    rcases this with h | h | h <;> rw [h] <;> simp [Req_to_State]
  have hpeel : ∀ m, serverRun ops (1 + m) (g0, (⟨SrvS.sIdle, vc, vr, 0⟩ : Srv))
      = serverRun ops m ({ g0 with Status := STAT_BUSY },
          (⟨Req_to_State g0.Request, g0, vr, 0⟩ : Srv)) := by
    intro m
    rw [serverRun_add ops 1 m]
    show serverRun ops m (Task_SD_Server ops g0 ⟨SrvS.sIdle, vc, vr, 0⟩) = _
    rw [hacc]
  constructor
  · obtain ⟨m, rfl⟩ : ∃ m, j = 1 + m := ⟨j - 1, by omega⟩
    rw [hpeel m]
    have := serverRun_ops ops m 0 { g0 with Status := STAT_BUSY } g0 vr
      (Req_to_State g0.Request) hsv (fun i hi1 hi2 => hrun i (by omega))
    exact ⟨this.1, this.2.1, this.2.2.1⟩
  · have hk2 : k + 2 = 1 + (k + 1) := by omega
    rw [hk2, hpeel (k + 1), serverRun_add ops k 1]
    have hmid := serverRun_ops ops k 0 { g0 with Status := STAT_BUSY } g0 vr
      (Req_to_State g0.Request) hsv (fun i hi1 hi2 => hrun i (by omega))
    rcases hsr : serverRun ops k ({ g0 with Status := STAT_BUSY },
        (⟨Req_to_State g0.Request, g0, vr, 0⟩ : Srv)) with ⟨mg, mn, mc, mr, mcl⟩
    rw [hsr] at hmid
    simp only at hmid
    obtain ⟨hmg, hmn, -, hmcl⟩ := hmid
    subst hmg
    subst hmn
    have hmcl0 : mcl = k := by simpa using hmcl
    rw [hmcl0]
    show ((Task_SD_Server ops { g0 with Status := STAT_BUSY }
      ⟨Req_to_State g0.Request, mc, mr, k⟩).1 = _) ∧
      ((Task_SD_Server ops { g0 with Status := STAT_BUSY }
        ⟨Req_to_State g0.Request, mc, mr, k⟩).2.next = _)
    have hstep : Task_SD_Server ops { g0 with Status := STAT_BUSY }
        ⟨Req_to_State g0.Request, mc, mr, k⟩
        = (Update_Trans { g0 with Status := STAT_BUSY } (ops k).1,
           ⟨SrvS.sIdle, mc, (ops k).1, k + 1⟩) := by
      rcases hsv with h | h | h <;> rw [h] <;>
        simp only [Task_SD_Server, hdone, Bool.false_eq_true, if_false]
    rw [hstep]
    constructor
    · simp [Update_Trans]
    · rfl

/-- C8 witness: a read request (code 2) accepted from idle, whose stepped
operation reports in-progress once and completes at its second call with
SD_OK: after the acceptance step and after the in-progress step the shared
Status is busy, the snapshot equals the submitted descriptor, and the
completing step writes SD_OK, idles the Status, clears the Request and
returns the dispatcher to idle. -/
theorem C8_dispatcher_witness :
    (v0W.next = SrvS.sIdle ∧ v0W.calls = 0 ∧ 1 ≤ g0W.Request ∧
      g0W.Request ≤ 3 ∧ (∀ i, i < 1 → (opsW i).2 = true) ∧
      (opsW 1).2 = false ∧ (1 : ℕ) ≤ 2 ∧ (2 : ℕ) ≤ 1 + 1) ∧
    (((serverRun opsW 2 (g0W, v0W)).1 = { g0W with Status := STAT_BUSY } ∧
      (serverRun opsW 2 (g0W, v0W)).2.next = Req_to_State g0W.Request ∧
      (serverRun opsW 2 (g0W, v0W)).2.cur = g0W) ∧
     ((serverRun opsW 3 (g0W, v0W)).1
        = { g0W with
              Request := REQ_NONE, Status := STAT_IDLE, ErrorCode := (opsW 1).1 } ∧
      (serverRun opsW 3 (g0W, v0W)).2.next = SrvS.sIdle)) :=
  ⟨⟨rfl, rfl, by decide, by decide, by decide, by decide, by decide, by decide⟩,
   C8_dispatcher opsW g0W v0W 1 2 rfl rfl (by decide) (by decide) (by decide)
     (by decide) (by decide) (by decide)⟩

/-- The retry loop only ever writes the device descriptor through the
per-iteration dev->mount = FALSE, so a completed loop hands back either
the descriptor it was given or one whose mounted flag is false. -/
theorem negotiate_dev (env : Env) (fuel : ℕ) : ∀ r ct (dev : SD_DEV) (s : St)
    (out : ℕ × SD_DEV × St), negotiate env fuel r ct dev s = some out →
    out.2.1 = dev ∨ out.2.1.mount = false := by
  intro r
  induction r with
  | zero =>
    intro ct dev s out h
    simp only [negotiate, Option.some.injEq] at h
    subst h
    exact Or.inl rfl
  | succ r ih =>
    intro ct dev s out h
    simp only [negotiate] at h
    by_cases hct : ct ≠ 0
    · rw [if_pos hct] at h
      simp only [Option.some.injEq] at h
      subst h
      exact Or.inl rfl
    · rw [if_neg hct] at h
      rcases hit : initTry env fuel s with _ | p
      · rw [hit] at h
        simp at h
      · rw [hit] at h
        simp only [Option.some_bind] at h
        rcases ih p.1 { dev with mount := false } p.2 out h with h1 | h1
        · right
          rw [h1]
        · right
          exact h1

/-- C6: when SD_Init of Project_2B completes, it answers SD_OK exactly
when the retry loop confirmed a card type (non-zero flags), and in that
case the returned descriptor carries that card type, mount = TRUE, both
debug counters zeroed, and last_sector equal to the __SD_Sectors decode
minus one in 32-bit DWORD arithmetic, with the high-speed clock selected
(an SPI_Freq_High event in the trace); when no type was confirmed after
the full retry budget it answers SD_NOINIT and the descriptor it hands
back is unmounted. -/
theorem C6_init_contract (env : Env) (fuel trys : ℕ) (dev : SD_DEV) (st : St)
    (res : SDRESULTS) (dev2 : SD_DEV) (st2 : St) (ct : ℕ) (dev1 : SD_DEV)
    (st1 : St)
    (htrys : 0 < trys)
    (hs : SD_Init env fuel trys dev st = some (res, dev2, st2))
    (hn : negotiate env fuel trys 0 dev st = some (ct, dev1, st1)) :
    (res = SD_OK ↔ ct ≠ 0) ∧
    (res = SD_OK ∨ res = SD_NOINIT) ∧
    (ct ≠ 0 →
      dev2.cardtype = ct ∧ dev2.mount = true ∧ dev2.debug_read = 0 ∧
      dev2.debug_write = 0 ∧ Ev.freqHigh ∈ st2.evs ∧
      (__SD_Sectors env fuel { dev1 with cardtype := ct, mount := true } st1).map
          (fun y => (y.1 + (2 ^ 32 - 1)) % 2 ^ 32) = some dev2.last_sector) ∧
    (ct = 0 → res = SD_NOINIT ∧ dev2 = dev1 ∧ dev2.mount = false) := by
  simp only [SD_Init, hn, Option.some_bind] at hs
  by_cases hct : ct ≠ 0
  · rw [if_pos hct] at hs
    rcases hsec : __SD_Sectors env fuel { dev1 with cardtype := ct, mount := true } st1
        with _ | q
    · rw [hsec] at hs
      simp at hs
    · rw [hsec] at hs
      simp only [Option.some_bind, Option.some.injEq, Prod.mk.injEq] at hs
      obtain ⟨h1, h2, h3⟩ := hs
      subst h1
      subst h2
      refine ⟨by simp [hct], Or.inl rfl, fun _ => ⟨rfl, rfl, rfl, rfl, ?_, ?_⟩,
        fun hc => absurd hc hct⟩
      · rw [← h3]
        simp
      · simp
  · rw [if_neg hct] at hs
    simp only [Option.some.injEq, Prod.mk.injEq] at hs
    obtain ⟨h1, h2, h3⟩ := hs
    subst h1
    subst h2
    have hct0 : ct = 0 := by omega
    subst hct0
    have hmount : dev1.mount = false := by
      obtain ⟨r, rfl⟩ : ∃ r, trys = r + 1 := ⟨trys - 1, by omega⟩
      simp only [negotiate, ne_eq, not_true_eq_false, if_false,
        eq_self_iff_true] at hn
      rcases hit : initTry env fuel st with _ | p
      · rw [hit] at hn
        simp at hn
      · rw [hit] at hn
        simp only [Option.some_bind] at hn
        rcases negotiate_dev env fuel r p.1 { dev with mount := false } p.2
            (0, dev1, st1) hn with h | h
        · rw [show dev1.mount = ({ dev with mount := false } : SD_DEV).mount from
            congrArg SD_DEV.mount h]
        · exact h
    exact ⟨by simp, Or.inr rfl, fun hc => absurd rfl hc, fun _ => ⟨rfl, rfl, hmount⟩⟩

set_option maxRecDepth 40000 in
/-- C6 witness: against the successful version-2 negotiation environment,
one try suffices: SD_Init answers SD_OK and the stale descriptor (card
type 0, unmounted, old last_sector 77, counters 5 and 6) comes back with
card type SDCT_SD2, mounted, last_sector 1023 (the decoded 1024 sectors
minus one) and both counters zeroed; the completed run is also evaluated
directly. -/
theorem C6_init_contract_witness :
    (0 < 1 ∧
      (SD_Init envInitOk 4 1 devI St.init).map (fun x => (x.1, x.2.1))
        = some (SD_OK, (⟨SDCT_SD2, true, 1023, 0, 0⟩ : SD_DEV))) ∧
    ((((SD_Init envInitOk 4 1 devI St.init).get (by decide)).1 = SD_OK ↔
        ((negotiate envInitOk 4 1 0 devI St.init).get (by decide)).1 ≠ 0) ∧
     (((SD_Init envInitOk 4 1 devI St.init).get (by decide)).1 = SD_OK ∨
        ((SD_Init envInitOk 4 1 devI St.init).get (by decide)).1 = SD_NOINIT) ∧
     (((negotiate envInitOk 4 1 0 devI St.init).get (by decide)).1 ≠ 0 →
       ((SD_Init envInitOk 4 1 devI St.init).get (by decide)).2.1.cardtype
          = ((negotiate envInitOk 4 1 0 devI St.init).get (by decide)).1 ∧
       ((SD_Init envInitOk 4 1 devI St.init).get (by decide)).2.1.mount = true ∧
       ((SD_Init envInitOk 4 1 devI St.init).get (by decide)).2.1.debug_read = 0 ∧
       ((SD_Init envInitOk 4 1 devI St.init).get (by decide)).2.1.debug_write = 0 ∧
       Ev.freqHigh ∈ ((SD_Init envInitOk 4 1 devI St.init).get (by decide)).2.2.evs ∧
       (__SD_Sectors envInitOk 4
           { ((negotiate envInitOk 4 1 0 devI St.init).get (by decide)).2.1 with
               cardtype := ((negotiate envInitOk 4 1 0 devI St.init).get (by decide)).1,
               mount := true }
           ((negotiate envInitOk 4 1 0 devI St.init).get (by decide)).2.2).map
           (fun y => (y.1 + (2 ^ 32 - 1)) % 2 ^ 32)
         = some ((SD_Init envInitOk 4 1 devI St.init).get (by decide)).2.1.last_sector) ∧
     (((negotiate envInitOk 4 1 0 devI St.init).get (by decide)).1 = 0 →
       ((SD_Init envInitOk 4 1 devI St.init).get (by decide)).1 = SD_NOINIT ∧
       ((SD_Init envInitOk 4 1 devI St.init).get (by decide)).2.1
          = ((negotiate envInitOk 4 1 0 devI St.init).get (by decide)).2.1 ∧
       ((SD_Init envInitOk 4 1 devI St.init).get (by decide)).2.1.mount = false)) :=
  ⟨⟨by decide, by decide⟩,
   C6_init_contract envInitOk 4 1 devI St.init _ _ _ _ _ _ (by decide)
     (Option.some_get (by decide)).symm (Option.some_get (by decide)).symm⟩

end SdCard
